import Mathlib

set_option maxRecDepth 100000
set_option maxHeartbeats 4000000

/-!
Verification of the two source-patching utilities in this repository:
`change_modify.py` (the Patch Applier) and
`compliance-frontend/public/PYTHON.py` (the Layout Fixer).

Strings are modelled as `List Char`; Python string primitives
(`strip`, `find`, `rfind`, `split`, `in`, `count`, `str.lower`,
`re.sub(r"\s+", " ", ...)`) are embedded below with Python semantics
(in particular `find` of the empty string returns 0).
-/

/-- The characters Python `str.strip()` and regex `\s` treat as whitespace
(ASCII fragment, which is all these files use). -/
def isPySpace (c : Char) : Bool :=
  c == ' ' || c == '\t' || c == '\n' || c == '\r' || c == '\x0b' || c == '\x0c'

/-- Python `s.lstrip()`. -/
def pyLstrip (s : List Char) : List Char := s.dropWhile isPySpace

/-- Python `s.rstrip()`. -/
def pyRstrip (s : List Char) : List Char := (s.reverse.dropWhile isPySpace).reverse

/-- Python `s.strip()`. -/
def pyStrip (s : List Char) : List Char := pyRstrip (pyLstrip s)

/-- Python `s.split('\n')` (always returns at least one piece). -/
def splitNl : List Char → List (List Char)
  | [] => [[]]
  | c :: t =>
    if c = '\n' then [] :: splitNl t
    else
      match splitNl t with
      | [] => [[c]]
      | h :: r => (c :: h) :: r

/-- `sep.join(pieces)`-style joining, generic in the element type. -/
def joinSep {α : Type} (sep : List α) : List (List α) → List α
  | [] => []
  | [x] => x
  | x :: y :: xs => x ++ sep ++ joinSep sep (y :: xs)

/-- Python `'\n'.join(pieces)`. -/
def joinNl (L : List (List Char)) : List Char := joinSep ['\n'] L

/-- Tail-recursive scan for `pyFind`: the index of the leftmost occurrence of
`needle` at or after the current position `i`.  The position accumulator is
matched on so that it stays a numeral during kernel reduction. -/
def pyFindAux (needle : List Char) : List Char → Nat → Option Nat
  | hay, i =>
    if needle.isPrefixOf hay then some i
    else
      match hay, i with
      | [], _ => none
      | _ :: t, 0 => pyFindAux needle t 1
      | _ :: t, j + 1 => pyFindAux needle t (j + 2)

theorem pyFindAux_nil (needle : List Char) (i : Nat) :
    pyFindAux needle [] i = if needle.isPrefixOf [] then some i else none := by
  cases i <;> rfl

theorem pyFindAux_cons (needle : List Char) (c : Char) (t : List Char) (i : Nat) :
    pyFindAux needle (c :: t) i =
      if needle.isPrefixOf (c :: t) then some i else pyFindAux needle t (i + 1) := by
  cases i <;> rfl

/-- Python `hay.find(needle)`: index of the leftmost occurrence, `none` for -1.
Like Python, the empty needle matches at index 0. -/
def pyFind (hay needle : List Char) : Option Nat := pyFindAux needle hay 0

/-- Tail-recursive list length (used for fuel bounds so that they evaluate
without deep recursion; it computes `l.length`).  The accumulator is matched
on to keep it a numeral during kernel reduction. -/
def lenT {α : Type} : List α → Nat → Nat
  | [], n => n
  | _ :: t, 0 => lenT t 1
  | _ :: t, n + 1 => lenT t (n + 2)

def listLen {α : Type} (l : List α) : Nat := lenT l 0

/-- Python `hay.find(needle, start)`. -/
def pyFindFrom (hay needle : List Char) (start : Nat) : Option Nat :=
  (pyFind (hay.drop start) needle).map (· + start)

/-- Python `hay.rfind(needle, start)`: highest index `≥ start` where `needle`
occurs, `none` for -1. -/
def pyRfindFrom (hay needle : List Char) (start : Nat) : Option Nat :=
  (List.range (hay.length + 1)).reverse.findSome? fun i =>
    if start ≤ i ∧ needle.isPrefixOf (hay.drop i) then some i else none

/-- Python `needle in hay`. -/
def pySub (needle hay : List Char) : Bool := (pyFind hay needle).isSome

/-- Python `hay.count(needle)` (non-overlapping, left to right); the first
argument is fuel bounding the number of iterations. -/
def pyCountF : Nat → List Char → List Char → Nat
  | 0, _, _ => 0
  | fuel + 1, hay, needle =>
    match pyFind hay needle with
    | none => 0
    | some i => 1 + pyCountF fuel (hay.drop (i + needle.length)) needle

/-- Python `hay.count(needle)` for a non-empty needle. -/
def pyCount (hay needle : List Char) : Nat := pyCountF (listLen hay + 1) hay needle

/-- Python `re.sub(r'\s+', ' ', s)`: collapse each maximal whitespace run to a
single space; the first argument is fuel (each step consumes one character). -/
def collapseWsF : Nat → List Char → List Char
  | 0, _ => []
  | _ + 1, [] => []
  | fuel + 1, c :: t =>
    if isPySpace c then ' ' :: collapseWsF fuel (t.dropWhile isPySpace)
    else c :: collapseWsF fuel t

/-- Python `re.sub(r'\s+', ' ', s)`. -/
def collapseWs (s : List Char) : List Char := collapseWsF s.length s

/-- Python `s.split()` (split on whitespace runs, no empty tokens); fuelled. -/
def pySplitF : Nat → List Char → List (List Char)
  | 0, _ => []
  | fuel + 1, s =>
    let t := s.dropWhile isPySpace
    if t.isEmpty then []
    else t.takeWhile (fun c => !isPySpace c) :: pySplitF fuel (t.dropWhile (fun c => !isPySpace c))

/-- Python `s.split()`. -/
def pySplit (s : List Char) : List (List Char) := pySplitF s.length s

/-- ASCII lower-casing of one character (what `str.lower` does on this data). -/
def pyToLower (c : Char) : Char :=
  if 'A' ≤ c ∧ c ≤ 'Z' then Char.ofNat (c.toNat + 32) else c

/-- Python `s.lower()` (ASCII fragment). -/
def pyLower (s : List Char) : List Char := s.map pyToLower

/-! Basic facts about the Python string primitives. -/

theorem pyFind_nil_needle (h : List Char) : pyFind h [] = some 0 := by
  unfold pyFind
  cases h with
  | nil => rw [pyFindAux_nil]; simp [List.isPrefixOf]
  | cons c t => rw [pyFindAux_cons]; simp [List.isPrefixOf]

/-- Core specification of the scan: a result `some j` means the needle is a
prefix of `hay` dropped at the relative offset `j - i`, and at no earlier
offset. -/
theorem pyFindAux_spec (needle : List Char) : ∀ (hay : List Char) (i j : Nat),
    pyFindAux needle hay i = some j →
    i ≤ j ∧ needle <+: hay.drop (j - i) ∧ ∀ k, k < j - i → ¬ needle <+: hay.drop k := by
  intro hay
  induction hay with
  | nil =>
    intro i j h
    rw [pyFindAux_nil] at h
    split at h
    · rename_i hp
      simp at h
      subst h
      refine ⟨le_refl _, ?_, ?_⟩
      · simpa using (List.isPrefixOf_iff_prefix).mp hp
      · intro k hk; omega
    · simp at h
  | cons c t ih =>
    intro i j h
    rw [pyFindAux_cons] at h
    split at h
    · rename_i hp
      simp at h
      subst h
      exact ⟨le_refl _, by simpa using (List.isPrefixOf_iff_prefix).mp hp,
        by intro k hk; omega⟩
    · rename_i hp
      obtain ⟨hij, hpre, hmin⟩ := ih (i + 1) j h
      refine ⟨by omega, ?_, ?_⟩
      · have harith : j - i = (j - (i + 1)) + 1 := by omega
        rw [harith, List.drop_succ_cons]
        exact hpre
      · intro k hk
        cases k with
        | zero =>
          simp only [List.drop_zero]
          intro hcon
          exact hp ((List.isPrefixOf_iff_prefix).mpr hcon)
        | succ k' =>
          simp only [List.drop_succ_cons]
          exact hmin k' (by omega)

theorem pyFind_eq_some_decomp (hay needle : List Char) (i : Nat)
    (h : pyFind hay needle = some i) :
    hay = hay.take i ++ needle ++ hay.drop (i + needle.length) := by
  obtain ⟨-, hpre, -⟩ := pyFindAux_spec needle hay 0 i h
  rw [Nat.sub_zero] at hpre
  obtain ⟨s, hs⟩ := hpre
  have h2 : s = hay.drop (i + needle.length) := by
    have hdrop := congrArg (List.drop needle.length) hs
    rw [List.drop_left] at hdrop
    rw [hdrop, List.drop_drop]
  calc hay = hay.take i ++ hay.drop i := (List.take_append_drop i hay).symm
    _ = hay.take i ++ (needle ++ s) := by rw [hs]
    _ = hay.take i ++ needle ++ hay.drop (i + needle.length) := by
        rw [h2, List.append_assoc]

theorem pyFind_min (hay needle : List Char) (i : Nat)
    (h : pyFind hay needle = some i) :
    ∀ j, j < i → ¬ needle <+: hay.drop j := by
  have hspec := (pyFindAux_spec needle hay 0 i h).2.2
  simpa using hspec

theorem pyFind_isSome_of_infix (needle hay : List Char)
    (h : needle <:+: hay) : (pyFind hay needle).isSome = true := by
  obtain ⟨a, b, hab⟩ := h
  suffices H : ∀ (a hay : List Char) (i : Nat), a ++ needle ++ b = hay →
      (pyFindAux needle hay i).isSome = true from H a hay 0 hab
  intro a
  induction a with
  | nil =>
    intro hay i hab
    cases hay with
    | nil =>
      rw [pyFindAux_nil]
      split
      · simp
      · rename_i hp
        exact absurd ((List.isPrefixOf_iff_prefix).mpr ⟨b, by simpa using hab⟩) hp
    | cons d t =>
      rw [pyFindAux_cons]
      split
      · simp
      · rename_i hp
        exact absurd ((List.isPrefixOf_iff_prefix).mpr ⟨b, by simpa using hab⟩) hp
  | cons c a' ih =>
    intro hay i hab
    cases hay with
    | nil => simp at hab
    | cons d t =>
      have hsplit : c = d ∧ a' ++ (needle ++ b) = t := by simpa using hab
      have ht : a' ++ needle ++ b = t := by simpa [List.append_assoc] using hsplit.2
      rw [pyFindAux_cons]
      split
      · simp
      · exact ih t (i + 1) ht

theorem pySub_iff_infix (needle hay : List Char) :
    pySub needle hay = true ↔ needle <:+: hay := by
  constructor
  · intro h
    unfold pySub at h
    rw [Option.isSome_iff_exists] at h
    obtain ⟨i, hi⟩ := h
    have := pyFind_eq_some_decomp hay needle i hi
    exact ⟨hay.take i, hay.drop (i + needle.length), this.symm⟩
  · intro h
    exact pyFind_isSome_of_infix needle hay h

theorem pyLstrip_suffix (s : List Char) : pyLstrip s <:+ s :=
  ⟨s.takeWhile isPySpace, List.takeWhile_append_dropWhile isPySpace s⟩

theorem pyRstrip_prefix (s : List Char) : pyRstrip s <+: s := by
  refine ⟨(s.reverse.takeWhile isPySpace).reverse, ?_⟩
  have h := List.takeWhile_append_dropWhile isPySpace s.reverse
  show (s.reverse.dropWhile isPySpace).reverse ++ (s.reverse.takeWhile isPySpace).reverse = s
  rw [← List.reverse_append, h, List.reverse_reverse]

theorem pyStrip_infix (s : List Char) : pyStrip s <:+: s :=
  ( pyRstrip_prefix (pyLstrip s)).isInfix.trans (pyLstrip_suffix s).isInfix

theorem splitNl_spec (s : List Char) :
    ∃ hd tl, splitNl s = hd :: tl ∧ hd <+: s ∧ ∀ l ∈ tl, l <:+: s := by
  induction s with
  | nil => exact ⟨[], [], rfl, List.nil_prefix, by simp⟩
  | cons c t ih =>
    obtain ⟨hd, tl, ht, hp, hm⟩ := ih
    by_cases hc : c = '\n'
    · refine ⟨[], splitNl t, by simp [splitNl, hc], List.nil_prefix, ?_⟩
      intro l hl
      rw [ht] at hl
      rcases List.mem_cons.mp hl with hl | hl
      · exact (hl ▸ hp.isInfix).trans (List.infix_cons (List.infix_refl t))
      · exact (hm l hl).trans (List.infix_cons (List.infix_refl t))
    · refine ⟨c :: hd, tl, by simp [splitNl, hc, ht], ?_, ?_⟩
      · exact (List.cons_prefix_cons).mpr ⟨rfl, hp⟩
      · intro l hl
        exact (hm l hl).trans (List.infix_cons (List.infix_refl t))

theorem mem_splitNl_infix (s l : List Char) (h : l ∈ splitNl s) : l <:+: s := by
  obtain ⟨hd, tl, ht, hp, hm⟩ := splitNl_spec s
  rw [ht] at h
  rcases List.mem_cons.mp h with h | h
  · exact h ▸ hp.isInfix
  · exact hm l h

theorem mem_joinSep_infix {α : Type} (sep : List α) (L : List (List α)) (l : List α)
    (h : l ∈ L) : l <:+: joinSep sep L := by
  induction L with
  | nil => cases h
  | cons x xs ih =>
    cases xs with
    | nil =>
      have hx : l = x := by simpa using h
      subst hx
      simp [joinSep]
    | cons y ys =>
      rcases List.mem_cons.mp h with hx | hx
      · subst hx
        show l <:+: l ++ sep ++ joinSep sep (y :: ys)
        have hpre : l <+: l ++ (sep ++ joinSep sep (y :: ys)) := List.prefix_append _ _
        simpa [List.append_assoc] using hpre.isInfix
      · show l <:+: x ++ sep ++ joinSep sep (y :: ys)
        have h1 : l <:+: joinSep sep (y :: ys) := ih hx
        have h2 : joinSep sep (y :: ys) <:+ (x ++ sep) ++ joinSep sep (y :: ys) :=
          List.suffix_append _ _
        exact h1.trans h2.isInfix

/-!
## Embedding of `change_modify.py` (the Patch Applier)

Logging is side-channel only in the source and is not modelled; content and
success values are modelled exactly. Field and function names follow the
source.
-/

/-- The `mode` key of a patch record. `apply_patch` treats any string other
than the three insert/replace modes like `"replace"` (its `else` branch);
`"remove_and_replace"` is the one such value the source documents. -/
inductive Mode
  | replace
  | insert_after
  | insert_before
  | remove_and_replace
deriving DecidableEq

/-- A patch record `{id, search, replace, mode}` as built by
`get_ui_patches` / `get_backend_patches`. -/
structure Patch where
  id : List Char
  search : List Char
  replace : List Char
  mode : Mode
deriving DecidableEq

/-- The `method` tag returned by `fuzzy_find`. -/
inductive MMethod
  | exact
  | line_stripped
  | regex_fuzzy
deriving DecidableEq

/-! ### `make_fuzzy_pattern` (change_modify.py lines 90-110) and the regex
fragment it emits.

The constructed pattern is built from `re.escape` of each stripped line with
escaped spaces widened to `\s+`, lines prefixed by `[ \t]*` (blank lines
becoming `\s*`) and joined by a literal newline.  That regex language is
exactly: literal characters, `\s+`, `\s*`, and `[ \t]*`. -/

inductive RTok
  | lit (c : Char)
  | wsPlus
  | wsStar
  | sptabStar
deriving DecidableEq

def make_fuzzy_pattern (search_text : List Char) : List RTok :=
  let lines := splitNl (pyStrip search_text)
  joinSep [RTok.lit '\n'] (lines.map fun line =>
    let stripped := pyStrip line
    if stripped = [] then [RTok.wsStar]
    else RTok.sptabStar :: stripped.map fun c => if c = ' ' then RTok.wsPlus else RTok.lit c)

def isSpTab (c : Char) : Bool := c == ' ' || c == '\t'

/-- Backtracking matcher for the pattern fragment above, anchored at the head
of `s`; returns the length of the match found by the usual greedy
leftmost-longest-first exploration (what `re` does on these patterns). -/
def matchEnd : List RTok → List Char → Option Nat
  | [], _ => some 0
  | RTok.lit c :: ts, s =>
    match s with
    | [] => none
    | x :: t => if x = c then (matchEnd ts t).map (· + 1) else none
  | RTok.wsPlus :: ts, s =>
    let k := (s.takeWhile isPySpace).length
    (List.range k).findSome? fun d =>
      (matchEnd ts (s.drop (k - d))).map fun e => (k - d) + e
  | RTok.wsStar :: ts, s =>
    let k := (s.takeWhile isPySpace).length
    (List.range (k + 1)).findSome? fun d =>
      (matchEnd ts (s.drop (k - d))).map fun e => (k - d) + e
  | RTok.sptabStar :: ts, s =>
    let k := (s.takeWhile isSpTab).length
    (List.range (k + 1)).findSome? fun d =>
      (matchEnd ts (s.drop (k - d))).map fun e => (k - d) + e

/-- `re.search`: leftmost starting position wins; returns `(start, end)`. -/
def regexSearchAux (p : List RTok) : List Char → Nat → Option (Nat × Nat)
  | s, pos =>
    match matchEnd p s with
    | some e => some (pos, pos + e)
    | none =>
      match s, pos with
      | [], _ => none
      | _ :: t, 0 => regexSearchAux p t 1
      | _ :: t, q + 1 => regexSearchAux p t (q + 2)

def regexSearchPos (p : List RTok) (content : List Char) : Option (Nat × Nat) :=
  regexSearchAux p content 0

/-! ### `fuzzy_find` (change_modify.py lines 113-167) -/

/-- The inner `while` of `fuzzy_find` strategy 2 (lines 138-148): returns
`(matched, si, matches)` at loop exit.  The `fuel` argument only bounds the
number of iterations (the loop advances `j` each iteration and exits once
`j` reaches `cl.length`, so `cl.length + 1` fuel is always enough). -/
def ffInnerF (sl cl : List (List Char)) : Nat → Nat → Nat → List Nat →
    Bool × Nat × List Nat
  | 0, si, _, acc => (true, si, acc)
  | fuel + 1, si, j, acc =>
    if si < sl.length ∧ j < cl.length then
      if pyStrip (cl.getD j []) = [] then ffInnerF sl cl fuel si (j + 1) acc
      else if pyStrip (cl.getD j []) = sl.getD si [] then
        ffInnerF sl cl fuel (si + 1) (j + 1) (acc ++ [j])
      else (false, si, acc)
    else (true, si, acc)

def ffInner (sl cl : List (List Char)) (si j : Nat) (acc : List Nat) :
    Bool × Nat × List Nat :=
  ffInnerF sl cl (cl.length + 1) si j acc

/-- The outer `for i in range(len(content_lines))` of `fuzzy_find`
strategy 2 (lines 131-156); fuelled like `ffInnerF`. -/
def ffOuterF (sl cl : List (List Char)) (content : List Char) : Nat → Nat →
    Option (Nat × Nat × MMethod)
  | 0, _ => none
  | fuel + 1, i =>
    if i < cl.length then
      if pyStrip (cl.getD i []) = sl.getD 0 [] then
        let r := ffInner sl cl 0 i []
        if r.1 = true ∧ r.2.1 = sl.length then
          let ms := r.2.2
          let start_pos := ((cl.take (ms.headD 0)).map (fun l => l.length + 1)).sum
          let end_line := ms.getLastD 0
          let end_pos := ((cl.take (end_line + 1)).map (fun l => l.length + 1)).sum
          if 0 < end_pos ∧ end_pos ≤ content.length then
            some (start_pos, end_pos - 1, MMethod.line_stripped)
          else ffOuterF sl cl content fuel (i + 1)
        else ffOuterF sl cl content fuel (i + 1)
      else ffOuterF sl cl content fuel (i + 1)
    else none

def ffOuter (sl cl : List (List Char)) (content : List Char) (i : Nat) :
    Option (Nat × Nat × MMethod) :=
  ffOuterF sl cl content (cl.length + 1) i

/-- The Python list comprehension
`[l.strip() for l in s.split('\n') if l.strip()]`. -/
def strippedNonblankLines (s : List Char) : List (List Char) :=
  (splitNl s).filterMap fun l => if pyStrip l = [] then none else some (pyStrip l)

/-- `fuzzy_find(content, search_text)`: `(start, end, method)` or `None`. -/
def fuzzy_find (content search_text : List Char) : Option (Nat × Nat × MMethod) :=
  match pyFind content (pyStrip search_text) with
  | some idx => some (idx, idx + (pyStrip search_text).length, MMethod.exact)
  | none =>
    if strippedNonblankLines (pyStrip search_text) = [] then none
    else
      match ffOuter (strippedNonblankLines (pyStrip search_text)) (splitNl content) content 0 with
      | some r => some r
      | none =>
        match regexSearchPos (make_fuzzy_pattern search_text) content with
        | some se => some (se.1, se.2, MMethod.regex_fuzzy)
        | none => none

/-! ### `apply_patch` (change_modify.py lines 241-302) -/

/-- The "already applied" check at the top of `apply_patch`
(lines 253-268): fires iff the first replacement line that is not a stripped
line of the search text already occurs in the content. -/
def applyPatchCheck (search_text replace_text content : List Char) : Bool :=
  let replace_lines := strippedNonblankLines (pyStrip replace_text)
  match replace_lines with
  | [] => false
  | _ =>
    let search_lines_set := (splitNl (pyStrip search_text)).map pyStrip
    let unique_replace_lines := replace_lines.filter fun l => !(search_lines_set.contains l)
    match unique_replace_lines with
    | [] => false
    | check_line :: _ => pySub check_line content

/-- `apply_patch(content, patch_id, search_text, replace_text, mode)`;
returns `(new_content, success)`. -/
def apply_patch (content patch_id search_text replace_text : List Char) (mode : Mode) :
    List Char × Bool :=
  if applyPatchCheck search_text replace_text content then (content, true)
  else
    match fuzzy_find content search_text with
    | none => (content, false)
    | some (s, e, _) =>
      match mode with
      | Mode.replace => (content.take s ++ pyStrip replace_text ++ content.drop e, true)
      | Mode.insert_after =>
        (content.take e ++ '\n' :: (pyStrip replace_text ++ content.drop e), true)
      | Mode.insert_before =>
        (content.take s ++ pyStrip replace_text ++ '\n' :: content.drop s, true)
      | Mode.remove_and_replace =>
        (content.take s ++ pyStrip replace_text ++ content.drop e, true)

/-! ### `advanced_apply_patch` (change_modify.py lines 689-835) -/

/-- Lines 706-711: stripped non-blank replacement lines that are not stripped
lines of the search text. -/
def advUniqueLines (search_stripped replace_stripped : List Char) : List (List Char) :=
  (splitNl replace_stripped).filterMap fun l =>
    if pyStrip l = [] then none
    else if (strippedNonblankLines search_stripped).contains (pyStrip l) then none
    else some (pyStrip l)

/-- Lines 713-719: the "already applied" check of `advanced_apply_patch`:
at least `min(2, ...)` of the first three unique replacement lines already
occur in the content. -/
def advancedAlreadyCheck (search_stripped replace_stripped content : List Char) : Bool :=
  match advUniqueLines search_stripped replace_stripped with
  | [] => false
  | u :: us =>
    let ul3 := (u :: us).take 3
    decide (min 2 ul3.length ≤ ul3.countP fun x => pySub x content)

/-- Strategy 1 of `advanced_apply_patch` (lines 721-728): exact substring
replacement at the first occurrence. -/
def exactStrategy (content ss rs : List Char) : Option (List Char) :=
  (pyFind content ss).map fun idx =>
    content.take idx ++ rs ++ content.drop (idx + ss.length)

/-- Line 774: `min((len(x) - len(x.lstrip())) for x in replace_lines if x.strip())`. -/
def minIndentOf (ls : List (List Char)) : Nat :=
  match (ls.filter fun x => !(pyStrip x).isEmpty).map (fun x => x.length - (pyLstrip x).length) with
  | [] => 0
  | h :: t => t.foldl min h

/-- Lines 760-761: the leading whitespace of the first matched content line. -/
def blrIndent (content_lines : List (List Char)) (start_line : Nat) : List Char :=
  let first_line := content_lines.getD start_line []
  first_line.take (first_line.length - (pyLstrip first_line).length)

/-- Lines 766-776: one re-indented replacement line (blank lines become
empty; others get the base indent plus their relative indent). -/
def blrLine (base_indent : List Char) (min_rl : Nat) (rl : List Char) : List Char :=
  if pyStrip rl = [] then []
  else base_indent ++ List.replicate ((rl.length - (pyLstrip rl).length) - min_rl) ' ' ++ pyStrip rl

/-- Lines 758-782: the replacement content built once the line-stripped scan
has located lines `start_line`..`end_line` of the content. -/
def buildLineReplacement (content_lines : List (List Char)) (replace_stripped : List Char)
    (start_line end_line : Nat) : List Char :=
  let indented_replace := (splitNl replace_stripped).map
    (blrLine (blrIndent content_lines start_line) (minIndentOf (splitNl replace_stripped)))
  joinNl (content_lines.take start_line ++ indented_replace ++ content_lines.drop (end_line + 1))

/-- The inner `while` of the line-stripped strategy of
`advanced_apply_patch` (lines 740-755); returns `(si, matched_indices)` at
loop exit.  The `fuel` argument only bounds the number of iterations (the
loop advances `j` each iteration and exits once `j` reaches `cl.length`). -/
def advInnerF (sl cl : List (List Char)) : Nat → Nat → Nat → List Nat → Nat × List Nat
  | 0, si, _, acc => (si, acc)
  | fuel + 1, si, j, acc =>
    if si < sl.length ∧ j < cl.length then
      let clj := pyStrip (cl.getD j [])
      let s := sl.getD si []
      if clj = [] ∧ s ≠ [] then advInnerF sl cl fuel si (j + 1) acc
      else if clj = s ∨ pySub s clj = true then
        if pySub s clj = true then advInnerF sl cl fuel (si + 1) (j + 1) (acc ++ [j])
        else advInnerF sl cl fuel si (j + 1) acc
      else (si, acc)
    else (si, acc)

def advInner (sl cl : List (List Char)) (si j : Nat) (acc : List Nat) : Nat × List Nat :=
  advInnerF sl cl (cl.length + 1) si j acc

/-- The outer `for` of the line-stripped strategy (lines 736-785); returns
the matched `(start_line, end_line)` pair; fuelled like `advInnerF`. -/
def advOuterF (sl cl : List (List Char)) : Nat → Nat → Option (Nat × Nat)
  | 0, _ => none
  | fuel + 1, i =>
    if i < cl.length then
      if pySub (sl.getD 0 []) (pyStrip (cl.getD i [])) = true ∨
          pyStrip (cl.getD i []) = sl.getD 0 [] then
        let r := advInner sl cl 0 i []
        if r.1 = sl.length ∧ r.2 ≠ [] then some (r.2.headD 0, r.2.getLastD 0)
        else advOuterF sl cl fuel (i + 1)
      else advOuterF sl cl fuel (i + 1)
    else none

def advOuter (sl cl : List (List Char)) (i : Nat) : Option (Nat × Nat) :=
  advOuterF sl cl (cl.length + 1) i

/-- Strategy 2 of `advanced_apply_patch` (lines 731-785). -/
def lineStrippedStrategy (content ss rs : List Char) : Option (List Char) :=
  if strippedNonblankLines ss = [] then none
  else (advOuter (strippedNonblankLines ss) (splitNl content) 0).map fun se =>
    buildLineReplacement (splitNl content) rs se.1 se.2

/-- Strategy 3 of `advanced_apply_patch` (lines 788-799).  The patterns
`make_fuzzy_pattern` builds contain no `.`, so `re.DOTALL` is inert and the
construction never raises `re.error`. -/
def regexStrategy (content search_raw rs : List Char) : Option (List Char) :=
  (regexSearchPos (make_fuzzy_pattern search_raw) content).map fun se =>
    content.take se.1 ++ rs ++ content.drop se.2

/-- Strategy 4 of `advanced_apply_patch` (lines 801-830): collapsed
whitespace check, then the first/last long-token span heuristic. -/
def collapsedStrategy (content ss rs : List Char) : Option (List Char) :=
  if (pyFind (collapseWs content) (collapseWs ss)).isSome then
    match (pySplit ss).filter fun t => decide (3 < t.length) with
    | [] => none
    | first_token :: rest =>
      -- `last_token` is the last element of the filtered token list; `end_pos`
      -- is `last_idx + len(last_token)`; `eol` is the next newline after it
      -- (end of content when there is none).
      match pyFind content first_token with
      | none => none
      | some first_idx =>
        match pyRfindFrom content ((first_token :: rest).getLastD []) first_idx with
        | none => none
        | some last_idx =>
          some (content.take first_idx ++ rs ++
            content.drop ((pyFindFrom content ['\n']
              (last_idx + ((first_token :: rest).getLastD []).length)).getD content.length))
  else none

/-- `advanced_apply_patch(content, patch)`: the already-applied check, then
the four-strategy cascade.  Note the `mode` field of the patch is never
consulted (the source reads `patch.get("mode", "replace")` into a local that
it never uses). -/
def advanced_apply_patch (content : List Char) (p : Patch) : List Char × Bool :=
  let ss := pyStrip p.search
  let rs := pyStrip p.replace
  if advancedAlreadyCheck ss rs content then (content, true)
  else
    match exactStrategy content ss rs with
    | some nc => (nc, true)
    | none =>
      match lineStrippedStrategy content ss rs with
      | some nc => (nc, true)
      | none =>
        match regexStrategy content p.search rs with
        | some nc => (nc, true)
        | none =>
          match collapsedStrategy content ss rs with
          | some nc => (nc, true)
          | none => (content, false)

/-! ### `main`'s per-file orchestration (change_modify.py lines 916-936 and
945-975): read, backup, apply all patches, write back only when changed. -/

/-- Filesystem effects of the orchestrator on one target file. -/
inductive FsEvent
  | backup (bakPath : List Char)
  | write (path : List Char) (content : List Char)
deriving DecidableEq

def dotBak : List Char := ".bak".data

/-- `backup_file`'s backup name `f"{path}.{ts}.bak"` (lines 228-235). -/
def bakPath (path ts : List Char) : List Char := path ++ '.' :: ts ++ dotBak

/-- The patch loop: `for patch in patches: content, success = advanced_apply_patch(content, patch)`. -/
def applyPatches (content : List Char) : List Patch → List Char
  | [] => content
  | p :: rest => applyPatches (advanced_apply_patch content p).1 rest

/-- `main`'s handling of one target file (`index.html` at lines 916-936, each
backend file at lines 945-975): a missing/unreadable file produces no
filesystem events; otherwise the file is backed up, all patches are applied
in order, and the result is written back only if it differs from the
original content. -/
def processTargetFile (path ts : List Char) (orig : Option (List Char)) (ps : List Patch) :
    List FsEvent :=
  match orig with
  | none => []
  | some content =>
    let final := applyPatches content ps
    FsEvent.backup (bakPath path ts) ::
      (if final = content then [] else [FsEvent.write path final])

/-! ## Claims C1, C2, C5, C6 about the Patch Applier -/

/-- Concrete inputs used by witnesses and counterexamples below. -/
def wHelloWorld : List Char := "hello world".data

def wHello : List Char := "hello".data

def wAdded : List Char := "added".data

def wAddedWorld : List Char := "added world".data

def wSnip : List Char := " hello ".data

def wWow : List Char := " wow ".data

def wXNy : List Char := "x\ny".data

def wX : List Char := "x".data

def wZ : List Char := "z".data

def wXyzw : List Char := "xyzw".data

def wQqqq : List Char := "qqqq".data

def wAbc : List Char := "abc".data

def wXy : List Char := "xy".data

def wXyabc : List Char := "xyabc".data

def wBlank : List Char := "  ".data

/-- C1: if the trimmed search snippet occurs exactly in the content and the
already-applied check does not fire, `advanced_apply_patch` in mode
`replace` succeeds via the exact-match strategy: the output is the content
with the first occurrence of the trimmed snippet replaced by the trimmed
replacement, all other bytes unchanged (the decomposition and the
minimality of `i` are part of the statement). -/
theorem C1_exact_replace (pid C S R : List Char) (i : Nat)
    (hck : advancedAlreadyCheck (pyStrip S) (pyStrip R) C = false)
    (hfind : pyFind C (pyStrip S) = some i) :
    advanced_apply_patch C ⟨pid, S, R, Mode.replace⟩ =
      (C.take i ++ pyStrip R ++ C.drop (i + (pyStrip S).length), true) ∧
    C = C.take i ++ pyStrip S ++ C.drop (i + (pyStrip S).length) ∧
    (∀ j, j < i → ¬ pyStrip S <+: C.drop j) := by
  refine ⟨?_, pyFind_eq_some_decomp C (pyStrip S) i hfind, pyFind_min C (pyStrip S) i hfind⟩
  simp [advanced_apply_patch, exactStrategy, hck, hfind]

/-- C1 witness: the theorem applied at `"hello world"` / `" hello "` /
`" wow "`. -/
theorem C1_exact_replace_w :
    advanced_apply_patch wHelloWorld ⟨[], wSnip, wWow, Mode.replace⟩ =
      (wHelloWorld.take 0 ++ pyStrip wWow ++ wHelloWorld.drop (0 + (pyStrip wSnip).length), true) ∧
    wHelloWorld = wHelloWorld.take 0 ++ pyStrip wSnip ++
      wHelloWorld.drop (0 + (pyStrip wSnip).length) ∧
    (∀ j, j < 0 → ¬ pyStrip wSnip <+: wHelloWorld.drop j) :=
  C1_exact_replace [] wHelloWorld wSnip wWow 0 (by decide) (by decide)

/-- C2 counterexample: on the path the tool actually runs
(`advanced_apply_patch`), a patch in mode `insert_after` whose search text
`"hello"` is matched at span (0, 5) of `"hello world"` does not produce
`content[:5] + '\n' + replacement + content[5:]` as the claim states; the
matched span is simply replaced. -/
theorem C2_cex :
    advanced_apply_patch wHelloWorld ⟨[], wHello, wAdded, Mode.insert_after⟩ =
      (wAddedWorld, true) ∧
    wAddedWorld ≠ wHelloWorld.take 5 ++ '\n' :: (pyStrip wAdded ++ wHelloWorld.drop 5) := by
  decide

/-- C2 (amended): `apply_patch` applies the three modes exactly as the claim
describes, but the patch-application path the tool actually runs
(`advanced_apply_patch`, the only one `main` calls) never consults the
patch's mode: its result is independent of the `mode` field. -/
theorem C2_modes (C pid S R : List Char) (s e : Nat) (m : MMethod)
    (hck : applyPatchCheck S R C = false)
    (hfind : fuzzy_find C S = some (s, e, m)) :
    apply_patch C pid S R Mode.replace = (C.take s ++ pyStrip R ++ C.drop e, true) ∧
    apply_patch C pid S R Mode.insert_after =
      (C.take e ++ '\n' :: (pyStrip R ++ C.drop e), true) ∧
    apply_patch C pid S R Mode.insert_before =
      (C.take s ++ pyStrip R ++ '\n' :: C.drop s, true) ∧
    (∀ pid' S' R' m₁ m₂, advanced_apply_patch C ⟨pid', S', R', m₁⟩ =
      advanced_apply_patch C ⟨pid', S', R', m₂⟩) := by
  refine ⟨?_, ?_, ?_, fun pid' S' R' m₁ m₂ => rfl⟩
  · simp [apply_patch, hck, hfind]
  · simp [apply_patch, hck, hfind]
  · simp [apply_patch, hck, hfind]

/-- C2 witness: the amended theorem applied at `"x\ny"` / `"x"` / `"z"`,
whose search text is found at span (0, 1) by the exact strategy. -/
theorem C2_modes_w :
    apply_patch wXNy [] wX wZ Mode.replace = (wXNy.take 0 ++ pyStrip wZ ++ wXNy.drop 1, true) ∧
    apply_patch wXNy [] wX wZ Mode.insert_after =
      (wXNy.take 1 ++ '\n' :: (pyStrip wZ ++ wXNy.drop 1), true) ∧
    apply_patch wXNy [] wX wZ Mode.insert_before =
      (wXNy.take 0 ++ pyStrip wZ ++ '\n' :: wXNy.drop 0, true) ∧
    (∀ pid' S' R' m₁ m₂, advanced_apply_patch wXNy ⟨pid', S', R', m₁⟩ =
      advanced_apply_patch wXNy ⟨pid', S', R', m₂⟩) :=
  C2_modes wXNy [] wX wZ 0 1 MMethod.exact (by decide) (by decide)

def wZzzz : List Char := "zzzz".data

/-- C5 counterexample: with content `"added"`, search `"zzzz"` and
replacement `"added"`, no strategy of the cascade locates the search text
(nor does `fuzzy_find`), yet both appliers report SUCCESS with the content
unchanged: the already-applied check, which runs before the cascade, fires
because the replacement's unique line `"added"` is already present in the
content — the claim's unconditional "reports failure" is false. -/
theorem C5_cex :
    exactStrategy wAdded (pyStrip wZzzz) (pyStrip wAdded) = none ∧
    lineStrippedStrategy wAdded (pyStrip wZzzz) (pyStrip wAdded) = none ∧
    regexStrategy wAdded wZzzz (pyStrip wAdded) = none ∧
    collapsedStrategy wAdded (pyStrip wZzzz) (pyStrip wAdded) = none ∧
    fuzzy_find wAdded wZzzz = none ∧
    advanced_apply_patch wAdded ⟨[], wZzzz, wAdded, Mode.replace⟩ = (wAdded, true) ∧
    apply_patch wAdded [] wZzzz wAdded Mode.replace = (wAdded, true) := by
  decide

/-- C5 (amended): when no strategy of the cascade locates the search text
(exact, line-stripped, regex-fuzzy, collapsed-whitespace for
`advanced_apply_patch`; `fuzzy_find` for `apply_patch`), the returned
content always equals the input byte-for-byte; the reported flag, however,
is decided by the already-applied check that runs before the cascade:
failure when the check does not fire, success (content still unchanged)
when it fires. -/
theorem C5_amended (C : List Char) (p : Patch)
    (h1 : exactStrategy C (pyStrip p.search) (pyStrip p.replace) = none)
    (h2 : lineStrippedStrategy C (pyStrip p.search) (pyStrip p.replace) = none)
    (h3 : regexStrategy C p.search (pyStrip p.replace) = none)
    (h4 : collapsedStrategy C (pyStrip p.search) (pyStrip p.replace) = none)
    (h5 : fuzzy_find C p.search = none) :
    (advanced_apply_patch C p).1 = C ∧
    (apply_patch C p.id p.search p.replace p.mode).1 = C ∧
    (advancedAlreadyCheck (pyStrip p.search) (pyStrip p.replace) C = false →
      advanced_apply_patch C p = (C, false)) ∧
    (advancedAlreadyCheck (pyStrip p.search) (pyStrip p.replace) C = true →
      advanced_apply_patch C p = (C, true)) ∧
    (applyPatchCheck p.search p.replace C = false →
      apply_patch C p.id p.search p.replace p.mode = (C, false)) ∧
    (applyPatchCheck p.search p.replace C = true →
      apply_patch C p.id p.search p.replace p.mode = (C, true)) := by
  have hateF : advancedAlreadyCheck (pyStrip p.search) (pyStrip p.replace) C = false →
      advanced_apply_patch C p = (C, false) := fun hck => by
    simp [advanced_apply_patch, hck, h1, h2, h3, h4]
  have hateT : advancedAlreadyCheck (pyStrip p.search) (pyStrip p.replace) C = true →
      advanced_apply_patch C p = (C, true) := fun hck => by
    simp [advanced_apply_patch, hck]
  have hapF : applyPatchCheck p.search p.replace C = false →
      apply_patch C p.id p.search p.replace p.mode = (C, false) := fun hck => by
    simp [apply_patch, hck, h5]
  have hapT : applyPatchCheck p.search p.replace C = true →
      apply_patch C p.id p.search p.replace p.mode = (C, true) := fun hck => by
    simp [apply_patch, hck]
  refine ⟨?_, ?_, hateF, hateT, hapF, hapT⟩
  · by_cases hck : advancedAlreadyCheck (pyStrip p.search) (pyStrip p.replace) C = true
    · rw [hateT hck]
    · rw [hateF (Bool.eq_false_iff.mpr hck)]
  · by_cases hck : applyPatchCheck p.search p.replace C = true
    · rw [hapT hck]
    · rw [hapF (Bool.eq_false_iff.mpr hck)]

/-- C5 witness: the amended theorem applied at content `"hello"` with search
text `"xyzw"` and replacement `"qqqq"`, which no strategy can locate. -/
theorem C5_amended_w :
    (advanced_apply_patch wHello ⟨[], wXyzw, wQqqq, Mode.replace⟩).1 = wHello ∧
    (apply_patch wHello [] wXyzw wQqqq Mode.replace).1 = wHello ∧
    (advancedAlreadyCheck (pyStrip wXyzw) (pyStrip wQqqq) wHello = false →
      advanced_apply_patch wHello ⟨[], wXyzw, wQqqq, Mode.replace⟩ = (wHello, false)) ∧
    (advancedAlreadyCheck (pyStrip wXyzw) (pyStrip wQqqq) wHello = true →
      advanced_apply_patch wHello ⟨[], wXyzw, wQqqq, Mode.replace⟩ = (wHello, true)) ∧
    (applyPatchCheck wXyzw wQqqq wHello = false →
      apply_patch wHello [] wXyzw wQqqq Mode.replace = (wHello, false)) ∧
    (applyPatchCheck wXyzw wQqqq wHello = true →
      apply_patch wHello [] wXyzw wQqqq Mode.replace = (wHello, true)) :=
  C5_amended wHello ⟨[], wXyzw, wQqqq, Mode.replace⟩ (by decide) (by decide) (by decide)
    (by decide) (by decide)

/-- C6 counterexample: with content `"abc"`, an empty search text and
replacement `"xy"`, `fuzzy_find` does NOT return "not found" (Python's
`find("")` is 0, so the exact strategy fires), and `advanced_apply_patch`
succeeds and changes the content to `"xyabc"` — the claim predicted failure
with the content unchanged. -/
theorem C6_cex :
    fuzzy_find wAbc [] ≠ none ∧
    advanced_apply_patch wAbc ⟨[], [], wXy, Mode.replace⟩ = (wXyabc, true) ∧
    (wXyabc, true) ≠ ((wAbc, false) : List Char × Bool) := by
  decide

/-- C6 (amended): an empty (or whitespace-only) search text is matched by the
exact strategy at position 0 with an empty span, so `fuzzy_find` returns
`(0, 0, exact)`, and — whenever the already-applied check does not fire —
`advanced_apply_patch` succeeds, prepending the trimmed replacement to the
content. -/
theorem C6_empty_search (C S R pid : List Char) (m : Mode)
    (hS : pyStrip S = [])
    (hck : advancedAlreadyCheck [] (pyStrip R) C = false) :
    fuzzy_find C S = some (0, 0, MMethod.exact) ∧
    advanced_apply_patch C ⟨pid, S, R, m⟩ = (pyStrip R ++ C, true) := by
  constructor
  · simp [fuzzy_find, hS, pyFind_nil_needle]
  · simp [advanced_apply_patch, hS, hck, exactStrategy, pyFind_nil_needle]

/-- C6 witness: the amended theorem applied at content `"abc"` with the
whitespace-only search text `"  "` and replacement `"xy"`. -/
theorem C6_empty_search_w :
    fuzzy_find wAbc wBlank = some (0, 0, MMethod.exact) ∧
    advanced_apply_patch wAbc ⟨[], wBlank, wXy, Mode.replace⟩ = (pyStrip wXy ++ wAbc, true) :=
  C6_empty_search wAbc wBlank wXy [] Mode.replace (by decide) (by decide)

/-! ## Claim C3: idempotence of `advanced_apply_patch` -/

def wA : List Char := "a".data

def wANA : List Char := "a\na".data

def wANANA : List Char := "a\na\na".data

def wGoodbye : List Char := "goodbye".data

/-- C3 counterexample: for the patch with search `"a"` and replacement
`"a\na"` (whose replacement has no "unique" line, so the already-applied
check can never fire), the first application to `"a"` succeeds and yields
`"a\na"`, but the second application yields `"a\na\na"` — the patch is NOT
detected as already applied and the content changes again. -/
theorem C3_cex :
    advanced_apply_patch wA ⟨[], wA, wANA, Mode.replace⟩ = (wANA, true) ∧
    advanced_apply_patch wANA ⟨[], wA, wANA, Mode.replace⟩ = (wANANA, true) ∧
    wANANA ≠ wANA := by
  decide

/-- Every element of `advUniqueLines ss rs` is nonempty and comes from a line
of `rs`. -/
theorem advUniqueLines_from_line (ss rs : List Char) (ul : List Char)
    (h : ul ∈ advUniqueLines ss rs) :
    ∃ l ∈ splitNl rs, pyStrip l = ul ∧ pyStrip l ≠ [] := by
  unfold advUniqueLines at h
  obtain ⟨l, hl, hf⟩ := List.mem_filterMap.mp h
  by_cases h1 : pyStrip l = []
  · simp [h1] at hf
  · simp only [h1, if_false] at hf
    by_cases h2 : (strippedNonblankLines ss).contains (pyStrip l) = true
    · have h2' : pyStrip l ∈ strippedNonblankLines ss := by simpa using h2
      simp [h2'] at hf
    · rw [Bool.eq_false_iff.mpr h2] at hf
      simp at hf
      exact ⟨l, hl, hf, h1⟩

/-- Every element of `advUniqueLines ss rs` is an infix of `rs`. -/
theorem advUniqueLines_infix (ss rs : List Char) (ul : List Char)
    (h : ul ∈ advUniqueLines ss rs) : ul <:+: rs := by
  obtain ⟨l, hl, hstrip, _⟩ := advUniqueLines_from_line ss rs ul h
  exact hstrip ▸ ( pyStrip_infix l).trans ( mem_splitNl_infix rs l hl)

theorem exactStrategy_shape (c ss rs nc : List Char)
    (h : exactStrategy c ss rs = some nc) : ∃ a b, nc = a ++ rs ++ b := by
  unfold exactStrategy at h
  cases hf : pyFind c ss with
  | none => rw [hf] at h; simp at h
  | some i =>
    rw [hf] at h
    simp at h
    refine ⟨c.take i, c.drop (i + ss.length), ?_⟩
    rw [← h, List.append_assoc]

theorem regexStrategy_shape (c sraw rs nc : List Char)
    (h : regexStrategy c sraw rs = some nc) : ∃ a b, nc = a ++ rs ++ b := by
  unfold regexStrategy at h
  cases hf : regexSearchPos (make_fuzzy_pattern sraw) c with
  | none => rw [hf] at h; simp at h
  | some se =>
    rw [hf] at h
    simp at h
    refine ⟨c.take se.1, c.drop se.2, ?_⟩
    rw [← h, List.append_assoc]

theorem collapsedStrategy_shape (c ss rs nc : List Char)
    (h : collapsedStrategy c ss rs = some nc) : ∃ a b, nc = a ++ rs ++ b := by
  unfold collapsedStrategy at h
  split at h
  · split at h
    · simp at h
    · split at h
      · simp at h
      · split at h
        · simp at h
        · simp at h
          exact ⟨_, _, by rw [← h, List.append_assoc]⟩
  · simp at h

/-- A nonblank stripped line of the replacement is an infix of every content
`buildLineReplacement` produces. -/
theorem buildLineReplacement_infix (cl : List (List Char)) (rs : List Char)
    (s e : Nat) (l : List Char) (hl : l ∈ splitNl rs) (hne : pyStrip l ≠ []) :
    pyStrip l <:+: buildLineReplacement cl rs s e := by
  unfold buildLineReplacement
  have h1 : pyStrip l <:+ blrLine (blrIndent cl s) (minIndentOf (splitNl rs)) l := by
    unfold blrLine
    rw [if_neg hne]
    exact List.suffix_append _ _
  have h2 : blrLine (blrIndent cl s) (minIndentOf (splitNl rs)) l ∈
      cl.take s ++ (splitNl rs).map (blrLine (blrIndent cl s) (minIndentOf (splitNl rs))) ++
        cl.drop (e + 1) := by
    refine List.mem_append.mpr (Or.inl (List.mem_append.mpr (Or.inr ?_)))
    exact List.mem_map.mpr ⟨l, hl, rfl⟩
  exact h1.isInfix.trans ( mem_joinSep_infix ['\n'] _ _ h2)

theorem lineStrippedStrategy_infix (c ss rs nc : List Char)
    (h : lineStrippedStrategy c ss rs = some nc)
    (l : List Char) (hl : l ∈ splitNl rs) (hne : pyStrip l ≠ []) :
    pyStrip l <:+: nc := by
  unfold lineStrippedStrategy at h
  split at h
  · simp at h
  · cases ho : advOuter (strippedNonblankLines ss) (splitNl c) 0 with
    | none => rw [ho] at h; simp at h
    | some se =>
      rw [ho] at h
      simp at h
      exact h ▸ buildLineReplacement_infix (splitNl c) rs se.1 se.2 l hl hne

/-- When `advanced_apply_patch` succeeds via any of the four strategies,
every "unique" replacement line occurs in the output. -/
theorem advSuccess_unique_infix (C C' : List Char) (p : Patch)
    (hck : advancedAlreadyCheck (pyStrip p.search) (pyStrip p.replace) C = false)
    (h : advanced_apply_patch C p = (C', true)) :
    ∀ ul ∈ advUniqueLines (pyStrip p.search) (pyStrip p.replace), ul <:+: C' := by
  intro ul hul
  obtain ⟨l, hl, hstrip, hne⟩ := advUniqueLines_from_line _ _ ul hul
  have hinfix_rs : ul <:+: pyStrip p.replace := advUniqueLines_infix _ _ ul hul
  simp only [advanced_apply_patch, hck, Bool.false_eq_true, if_false] at h
  cases h1 : exactStrategy C (pyStrip p.search) (pyStrip p.replace) with
  | some nc =>
    rw [h1] at h
    simp at h
    obtain ⟨a, b, hab⟩ := exactStrategy_shape C _ _ nc h1
    have hrep : pyStrip p.replace <:+: C' := by
      rw [← h, hab]; exact ⟨a, b, rfl⟩
    exact hinfix_rs.trans hrep
  | none =>
    rw [h1] at h
    cases h2 : lineStrippedStrategy C (pyStrip p.search) (pyStrip p.replace) with
    | some nc =>
      rw [h2] at h
      simp at h
      have hthis := lineStrippedStrategy_infix C _ _ nc h2 l hl hne
      rw [hstrip] at hthis
      exact h ▸ hthis
    | none =>
      rw [h2] at h
      cases h3 : regexStrategy C p.search (pyStrip p.replace) with
      | some nc =>
        rw [h3] at h
        simp at h
        obtain ⟨a, b, hab⟩ := regexStrategy_shape C _ _ nc h3
        have hrep : pyStrip p.replace <:+: C' := by
          rw [← h, hab]; exact ⟨a, b, rfl⟩
        exact hinfix_rs.trans hrep
      | none =>
        rw [h3] at h
        cases h4 : collapsedStrategy C (pyStrip p.search) (pyStrip p.replace) with
        | some nc =>
          rw [h4] at h
          simp at h
          obtain ⟨a, b, hab⟩ := collapsedStrategy_shape C _ _ nc h4
          have hrep : pyStrip p.replace <:+: C' := by
            rw [← h, hab]; exact ⟨a, b, rfl⟩
          exact hinfix_rs.trans hrep
        | none =>
          rw [h4] at h
          simp at h

/-- C3 (amended): provided the replacement has at least one "unique" line
(a nonblank stripped line not among the search text's stripped lines), a
second application of a patch whose first application succeeded detects the
patch as already applied and returns the content unchanged with success.
(The unamended claim fails when `advUniqueLines` is empty — see the
counterexample.) -/
theorem C3_idempotent_second_run (C C' : List Char) (p : Patch)
    (hul : advUniqueLines (pyStrip p.search) (pyStrip p.replace) ≠ [])
    (h : advanced_apply_patch C p = (C', true)) :
    advanced_apply_patch C' p = (C', true) := by
  by_cases hck : advancedAlreadyCheck (pyStrip p.search) (pyStrip p.replace) C = true
  · have hC : C = C' := by
      simp only [advanced_apply_patch, hck, if_true] at h
      exact congrArg Prod.fst h
    subst hC
    simp only [advanced_apply_patch, hck, if_true]
  · have hck' : advancedAlreadyCheck (pyStrip p.search) (pyStrip p.replace) C = false :=
      Bool.eq_false_iff.mpr hck
    have hall := advSuccess_unique_infix C C' p hck' h
    have hfire : advancedAlreadyCheck (pyStrip p.search) (pyStrip p.replace) C' = true := by
      unfold advancedAlreadyCheck
      cases hAdv : advUniqueLines (pyStrip p.search) (pyStrip p.replace) with
      | nil => exact absurd hAdv hul
      | cons u us =>
        have hmem : ∀ x ∈ ((u :: us).take 3), pySub x C' = true := by
          intro x hx
          refine ( pySub_iff_infix x C').mpr ?_
          exact hall x (hAdv ▸ List.mem_of_mem_take hx)
        have hcount : ((u :: us).take 3).countP (fun x => pySub x C') =
            ((u :: us).take 3).length := List.countP_eq_length.mpr hmem
        show decide (min 2 ((u :: us).take 3).length ≤
          ((u :: us).take 3).countP fun x => pySub x C') = true
        rw [hcount]
        exact decide_eq_true (Nat.min_le_right _ _)
    simp only [advanced_apply_patch, hfire, if_true]

/-- C3 witness: the amended theorem applied to the patch replacing `"hello"`
by `"goodbye"` on content `"hello"` (first run succeeds with output
`"goodbye"`; the second run returns it unchanged with success). -/
theorem C3_idempotent_second_run_w :
    advanced_apply_patch wGoodbye ⟨[], wHello, wGoodbye, Mode.replace⟩ = (wGoodbye, true) :=
  C3_idempotent_second_run wHello wGoodbye ⟨[], wHello, wGoodbye, Mode.replace⟩
    (by decide) (by decide)

/-! ## Claims C8 and C9 about `main`'s per-file orchestration -/

def wPath : List Char := "index.html".data

def wTs : List Char := "20251012_000000".data

/-- A failure of `advanced_apply_patch` leaves the content unchanged (every
failing branch of the source returns `content` itself). -/
theorem advanced_fail_unchanged (c c' : List Char) (p : Patch)
    (h : advanced_apply_patch c p = (c', false)) : c' = c := by
  simp only [advanced_apply_patch] at h
  split at h
  · simp at h
  · split at h
    · simp at h
    · split at h
      · simp at h
      · split at h
        · simp at h
        · split at h
          · simp at h
          · simp at h
            exact h.symm

/-- A patch application that failed or was skipped as already applied leaves
the content unchanged. -/
theorem advanced_noop_of_fail_or_skip (c : List Char) (p : Patch)
    (h : (advanced_apply_patch c p).2 = false ∨
      advancedAlreadyCheck (pyStrip p.search) (pyStrip p.replace) c = true) :
    (advanced_apply_patch c p).1 = c := by
  rcases h with h | h
  · cases hr : advanced_apply_patch c p with
    | mk c' b =>
      rw [hr] at h
      simp at h
      subst h
      simp
      exact advanced_fail_unchanged c c' p hr
  · simp [advanced_apply_patch, h]

/-- If every patch application in the loop leaves the content it sees
unchanged, the loop returns the original content. -/
theorem applyPatches_noop (ps : List Patch) (c : List Char)
    (h : ∀ i, (hi : i < ps.length) →
      (advanced_apply_patch (applyPatches c (ps.take i)) (ps.get ⟨i, hi⟩)).1 =
        applyPatches c (ps.take i)) :
    applyPatches c ps = c := by
  induction ps generalizing c with
  | nil => rfl
  | cons p rest ih =>
    have h0 : (advanced_apply_patch c p).1 = c := by
      simpa [applyPatches] using h 0 (by simp)
    show applyPatches (advanced_apply_patch c p).1 rest = c
    rw [h0]
    apply ih
    intro i hi
    have hh := h (i + 1) (by simpa using Nat.succ_lt_succ hi)
    simpa [List.take_succ_cons, applyPatches, h0] using hh

/-- C8: the final content is written back to the original path only if it
differs from the content originally read (and the written content is the
patch-loop result); when every patch either failed or was skipped as already
applied, the file is not rewritten — the run's only filesystem event is the
backup. -/
theorem C8_write_only_if_changed (path ts c : List Char) (ps : List Patch) :
    (∀ w, FsEvent.write path w ∈ processTargetFile path ts (some c) ps →
      applyPatches c ps ≠ c ∧ w = applyPatches c ps) ∧
    ((∀ i, (hi : i < ps.length) →
        (advanced_apply_patch (applyPatches c (ps.take i)) (ps.get ⟨i, hi⟩)).2 = false ∨
        advancedAlreadyCheck (pyStrip (ps.get ⟨i, hi⟩).search)
          (pyStrip (ps.get ⟨i, hi⟩).replace) (applyPatches c (ps.take i)) = true) →
      processTargetFile path ts (some c) ps = [FsEvent.backup (bakPath path ts)]) := by
  constructor
  · intro w hw
    unfold processTargetFile at hw
    by_cases hfc : applyPatches c ps = c
    · simp [hfc] at hw
    · simp [hfc] at hw
      exact ⟨hfc, hw⟩
  · intro h
    have hfc : applyPatches c ps = c := by
      apply applyPatches_noop
      intro i hi
      exact advanced_noop_of_fail_or_skip _ _ (h i hi)
    unfold processTargetFile
    simp [hfc]

/-- C8 witness: a run over one patch whose search text is found nowhere: the
patch fails, the file content is unchanged, and the only filesystem event is
the backup. -/
theorem C8_write_only_if_changed_w :
    processTargetFile wPath wTs (some wHello) [⟨[], wXyzw, wQqqq, Mode.replace⟩] =
      [FsEvent.backup (bakPath wPath wTs)] :=
  (C8_write_only_if_changed wPath wTs wHello [⟨[], wXyzw, wQqqq, Mode.replace⟩]).2
    (by
      intro i hi
      have h0 : i = 0 := by
        simp at hi
        omega
      subst h0
      left
      show (advanced_apply_patch wHello ⟨[], wXyzw, wQqqq, Mode.replace⟩).2 = false
      decide)

/-- C9: for every target file that exists (was readable), the orchestrator's
first filesystem event is — unconditionally — the creation of the
timestamped `.bak` backup copy, before any patch result can be written; any
later event is the single write of the final content.  A missing file
produces no events at all (and hence no backup). -/
theorem C9_backup_always (path ts c : List Char) (ps : List Patch) :
    (∃ rest, processTargetFile path ts (some c) ps =
        FsEvent.backup (bakPath path ts) :: rest ∧
      ∀ e ∈ rest, e = FsEvent.write path (applyPatches c ps)) ∧
    processTargetFile path ts none ps = [] := by
  refine ⟨⟨_, rfl, ?_⟩, rfl⟩
  intro e he
  by_cases hfc : applyPatches c ps = c
  · simp [hfc] at he
  · simp [hfc] at he
    exact he

/-!
## Embedding of `compliance-frontend/public/PYTHON.py` (the Layout Fixer)

`patch_html` is modelled as a pure function from the input file's text to
either the output file's text or `none` (a raised `ValueError`); `main`'s
argument handling, exit codes and file writes are modelled by `layoutMain`.
-/

def PATCH_MARKER_CSS_BEGIN : List Char := "/* === COS_LAYOUT_PATCH_BEGIN === */".data

def PATCH_MARKER_CSS_END : List Char := "/* === COS_LAYOUT_PATCH_END === */".data

def PATCH_MARKER_JS_BEGIN : List Char := "/* === COS_LAYOUT_PATCH_JS_BEGIN === */".data

def PATCH_MARKER_JS_END : List Char := "/* === COS_LAYOUT_PATCH_JS_END === */".data

/-- The interior of the CSS block (the text strictly between its begin and
end markers); `CSS_PATCH` below is the full `.strip()`ed source constant. -/
def cssMid : List Char := ("\n/* Goal: whole-page scroll only (avoid nested scrollbars), keep dialogs/inspector scrollable,\n   and make the rail expandable. */\n\n/* 1) Whole-page scroll: let body scroll; prevent app/shell/view from creating inner scrollbars. */\nhtml, body \x7b height: auto !important; min-height: 100% !important; \x7d\nbody \x7b overflow-y: auto !important; \x7d\n\n/* Ensure the main structural containers don\x27t trap scroll */\n.app \x7b height: auto !important; min-height: 100vh !important; \x7d\n.shell \x7b height: auto !important; min-height: calc(100vh - var(--topbarH)) !important; overflow: visible !important; \x7d\n.content \x7b height: auto !important; overflow: visible !important; \x7d\n.canvas \x7b height: auto !important; overflow: visible !important; \x7d\n\n/* Critical: .view originally has overflow:auto -> removes inner scrolling */\n.view \x7b height: auto !important; overflow: visible !important; \x7d\n\n/* Keep dialogs scrollable (these are \"allowed\" inner scroll areas) */\n.dialogPanel \x7b overflow: hidden !important; \x7d\n.dialogBody \x7b overflow: auto !important; max-height: 70vh; \x7d\n\n/* Keep inspector body scrollable (allowed inner scroll area) */\n.cosInspectorBody \x7b overflow: auto !important; max-height: 70vh; \x7d\n\n/* Long lists: allow them to scroll only after a generous height. Add a utility class. */\n.cosLongScroll \x7b\n  max-height: min(72vh, 900px);\n  overflow: auto;\n  padding-right: 4px;\n\x7d\n\n/* Apply long-scroll behavior to command palette list and other known \"can be huge\" lists */\n#cmdList \x7b max-height: min(56vh, 720px); overflow: auto; padding-right: 4px; \x7d\n\n/* 2) Rail (sidebar) expansion */\n:root\x7b\n  --railExpandedW: 260px;\n\x7d\n\n/* Make rail support two modes via data attribute on body */\n.rail \x7b width: var(--railW); \x7d\nbody[data-rail=\"expanded\"] .shell \x7b grid-template-columns: var(--railExpandedW) 1fr; \x7d\nbody[data-rail=\"expanded\"] .rail \x7b\n  align-items: stretch;\n  padding: var(--s-3);\n  gap: 10px;\n\x7d\n\n/* Rail buttons become rows with label when expanded */\n.railBtn\x7b\n  display:flex;\n  align-items:center;\n  justify-content:center;\n  gap: 12px;\n  padding: 0;\n\x7d\nbody[data-rail=\"expanded\"] .railBtn\x7b\n  width: 100%;\n  height: 52px;\n  justify-content:flex-start;\n  padding: 0 14px;\n  border-radius: 18px;\n\x7d\n\n/* label element injected by JS */\n.railLbl\x7b\n  display:none;\n  font-weight: 900;\n  letter-spacing: .2px;\n  color: var(--text);\n  white-space: nowrap;\n  overflow: hidden;\n  text-overflow: ellipsis;\n\x7d\nbody[data-rail=\"expanded\"] .railLbl\x7b display:inline; \x7d\n\n/* A dedicated toggle button pinned at top of rail when expanded/collapsed */\n#railToggleBtn\x7b\n  width: 100%;\n  height: 46px;\n  border-radius: 18px;\n\x7d\n\n/* 3) Mobile rules: keep existing bottom rail behavior; expansion disabled on small screens */\n@media (max-width: 980px)\x7b\n  body[data-rail=\"expanded\"] .shell \x7b grid-template-columns: 1fr !important; \x7d\n  body[data-rail=\"expanded\"] .rail \x7b width: auto !important; \x7d\n\x7d\n").data

/-- The CSS block injected before the closing style tag (PYTHON.py lines
33-123, after `.strip()`); it starts with the CSS begin marker and ends with
the CSS end marker. -/
def CSS_PATCH : List Char := PATCH_MARKER_CSS_BEGIN ++ cssMid ++ PATCH_MARKER_CSS_END

/-- First half of the JS block up to its end marker. -/
def jsMid1 : List Char := ("/* === COS_LAYOUT_PATCH_JS_BEGIN ===\n   - Adds expandable rail with labels\n   - Prevents \"double overlay close\" issues by ensuring inspector overlay click doesn\x27t fight dialogs\n   - Adds long-scroll class to specific very-long containers after render\n=== */\n(() => \x7b\n  \x27use strict\x27;\n\n  const RAIL_KEY = \x27cos_rail\x27; // \x27collapsed\x27 | \x27expanded\x27\n  const rail = document.querySelector(\x27.rail\x27);\n  const shell = document.querySelector(\x27.shell\x27);\n  if (!rail || !shell) return;\n\n  // 1) Rail labels + toggle\n  const navMap = [\n    [\x27navHome\x27, \x27Overview\x27],\n    [\x27navWork\x27, \x27Work Queue\x27],\n    [\x27navCalendar\x27, \x27Timeline\x27],\n    [\x27navClients\x27, \x27Clients\x27],\n    [\x27navStudio\x27, \x27Studio\x27],\n    [\x27navOps\x27, \x27Ops & Reports\x27],\n    [\x27navHelp\x27, \x27Help\x27],\n  ];\n\n  function ensureLabel(btnId, label) \x7b\n    const btn = document.getElementById(btnId);\n    if (!btn) return;\n    // keep glyph text as-is; add label span if missing\n    let span = btn.querySelector(\x27.railLbl\x27);\n    if (!span) \x7b\n      span = document.createElement(\x27span\x27);\n      span.className = \x27railLbl\x27;\n      btn.appendChild(span);\n    \x7d\n    span.textContent = label;\n  \x7d\n\n  navMap.forEach(([id, label]) => ensureLabel(id, label));\n\n  // Create toggle button at top of rail\n  let toggle = document.getElementById(\x27railToggleBtn\x27);\n  if (!toggle) \x7b\n    toggle = document.createElement(\x27button\x27);\n    toggle.id = \x27railToggleBtn\x27;\n    toggle.type = \x27button\x27;\n    toggle.className = \x27railBtn\x27;\n    toggle.title = \x27Expand / collapse\x27;\n    toggle.setAttribute(\x27aria-label\x27, \x27Expand / collapse sidebar\x27);\n\n    // Put at top of rail\n    rail.insertBefore(toggle, rail.firstChild);\n  \x7d\n\n  function setToggleVisual(expanded) \x7b\n    // simple text glyph (no dependency). You can swap to icons later.\n    toggle.textContent = expanded ? \x27⟨\x27 : \x27⟩\x27;\n    // add label (will show only when expanded)\n    let lbl = toggle.querySelector(\x27.railLbl\x27);\n    if (!lbl) \x7b\n      lbl = document.createElement(\x27span\x27);\n      lbl.className = \x27railLbl\x27;\n      toggle.appendChild(lbl);\n    \x7d\n    lbl.textContent = expanded ? \x27Collapse\x27 : \x27Expand\x27;\n  \x7d\n\n  function isMobile() \x7b\n    return window.matchMedia && window.matchMedia(\x27(max-width: 980px)\x27).matches;\n  \x7d\n\n  function applyRailState(state) \x7b\n    if (isMobile()) \x7b\n      document.body.removeAttribute(\x27data-rail\x27);\n      localStorage.setItem(RAIL_KEY, \x27collapsed\x27);\n      setToggleVisual(false);\n      return;\n    \x7d\n    const expanded = state === \x27expanded\x27;\n    document.bod").data

/-- Second half of the JS block up to its end marker. -/
def jsMid2 : List Char := ("y.setAttribute(\x27data-rail\x27, expanded ? \x27expanded\x27 : \x27collapsed\x27);\n    localStorage.setItem(RAIL_KEY, expanded ? \x27expanded\x27 : \x27collapsed\x27);\n    setToggleVisual(expanded);\n  \x7d\n\n  toggle.addEventListener(\x27click\x27, () => \x7b\n    const cur = (localStorage.getItem(RAIL_KEY) || \x27collapsed\x27);\n    applyRailState(cur === \x27expanded\x27 ? \x27collapsed\x27 : \x27expanded\x27);\n  \x7d);\n\n  // init\n  applyRailState(localStorage.getItem(RAIL_KEY) || \x27collapsed\x27);\n  window.addEventListener(\x27resize\x27, () => applyRailState(localStorage.getItem(RAIL_KEY) || \x27collapsed\x27));\n\n  // 2) Reduce duplicate overlay-close behavior:\n  // The app uses #overlay for dialogs AND inspector; we ensure inspector doesn\x27t close when a dialog is open.\n  // We can\x27t easily see \"activeDialog\" from Part 2 closure, so detect open dialogs by .dialog.show.\n  const overlay = document.getElementById(\x27overlay\x27);\n  if (overlay) \x7b\n    overlay.addEventListener(\x27click\x27, (e) => \x7b\n      // If any dialog is open, let dialog system handle it (don\x27t also close inspector).\n      const anyDialogOpen = !!document.querySelector(\x27.dialog.show\x27);\n      if (anyDialogOpen) return;\n      // Inspector close handler already exists; we don\x27t stop it. This just prevents double-actions.\n    \x7d, true);\n  \x7d\n\n  // 3) After each view mount, mark very long containers as scrollable only after generous height.\n  // Hook into existing mount function if present.\n  function applyLongScrollHints() \x7b\n    // Work queue results card body often becomes huge; cap it only after big height.\n    // We look for cards whose head includes \"Results\" or \"Clients\" list blocks.\n    document.querySelectorAll(\x27.card\x27).forEach(card => \x7b\n      const h2 = card.querySelector(\x27.cardHead h2\x27);\n      if (!h2) return;\n      const t = (h2.textContent || \x27\x27).trim().toLowerCase();\n      if (t === \x27results\x27 || t === \x27clients\x27) \x7b\n        const body = card.querySelector(\x27.cardBody\x27);\n        if (body) body.classList.add(\x27cosLongScroll\x27);\n      \x7d\n    \x7d);\n  \x7d\n\n  // run once, and also after each rerender\n  applyLongScrollHints();\n  const prevOnData = window.__cos_onData;\n  window.__cos_onData = () => \x7b\n    try \x7b prevOnData && prevOnData(); \x7d finally \x7b setTimeout(applyLongScrollHints, 0); \x7d\n  \x7d;\n  const prevMountView = window.__cos_mountView;\n  if (typeof prevMountView === \x27function\x27) \x7b\n    window.__cos_mountView = (key) => \x7b\n      const r = prevMountView(key);\n      setTimeout(applyLongScrollHints, 0);\n      return r;\n    \x7d;\n  \x7d\n\x7d)();\n").data

/-- The JS block injected before the closing body tag (PYTHON.py lines
126-264, after `.strip()`).  Its opening comment line ends right after
`COS_LAYOUT_PATCH_JS_BEGIN ===` (the comment terminator only appears four
lines later), so the `PATCH_MARKER_JS_BEGIN` literal does not occur anywhere
in this block; the block does end with the JS end marker. -/
def JS_PATCH : List Char := jsMid1 ++ jsMid2 ++ PATCH_MARKER_JS_END

/-- One pass of `re.sub(re.escape(b) + ".*?" + re.escape(e), "", s, DOTALL)`:
repeatedly remove the span from each occurrence of `b` up to the nearest
following occurrence of `e` (non-greedy), scanning left to right.  `fuel`
bounds the number of removals (each removal consumes at least the marker
text, and the markers used here are non-empty). -/
def removeBetweenF : Nat → List Char → List Char → List Char → List Char
  | 0, _, _, s => s
  | fuel + 1, b, e, s =>
    match pyFind s b with
    | none => s
    | some i =>
      match pyFind (s.drop (i + b.length)) e with
      | none => s
      | some g =>
        s.take i ++ removeBetweenF fuel b e (s.drop (i + b.length + g + e.length))

def removeBetween (b e s : List Char) : List Char := removeBetweenF (listLen s + 1) b e s

/-- `_remove_existing_patch` (PYTHON.py lines 285-300): strip any CSS
marker-delimited block, then any JS marker-delimited block. -/
def remove_existing_patch (html : List Char) : List Char :=
  removeBetween PATCH_MARKER_JS_BEGIN PATCH_MARKER_JS_END
    (removeBetween PATCH_MARKER_CSS_BEGIN PATCH_MARKER_CSS_END html)

/-- `_already_patched` (lines 281-282; defined in the source but never
called). -/
def already_patched (html : List Char) : Bool :=
  pySub PATCH_MARKER_CSS_BEGIN html || pySub PATCH_MARKER_JS_BEGIN html

/-- Does `s` start with `</tag` (case-insensitively) followed by `\s*>`
(i.e. the regex `</tag\s*>` with `re.IGNORECASE` matches at the head)? -/
def tagCloseAt (tag : List Char) (s : List Char) : Bool :=
  if pyLower (s.take tag.length) = tag then
    match (s.drop tag.length).dropWhile isPySpace with
    | '>' :: _ => true
    | _ => false
  else false

/-- `re.search(r"</tag\s*>", html, IGNORECASE).start()`: index of the
leftmost match. -/
def findCloseAux (tag : List Char) : List Char → Nat → Option Nat
  | s, pos =>
    if tagCloseAt tag s then some pos
    else
      match s, pos with
      | [], _ => none
      | _ :: t, 0 => findCloseAux tag t 1
      | _ :: t, p + 1 => findCloseAux tag t (p + 2)

/-- `_find_style_close_index` (lines 267-271); `none` models the raised
`ValueError`. -/
def findStyleClose (html : List Char) : Option Nat := findCloseAux ("</style").data html 0

/-- `_find_body_close_index` (lines 274-278). -/
def findBodyClose (html : List Char) : Option Nat := findCloseAux ("</body").data html 0

/-- `_apply_base_css_fixes` (lines 303-311): returns the html unchanged. -/
def apply_base_css_fixes (html : List Char) : List Char := html

def nl2 : List Char := "\n\n".data

def scriptOpen : List Char := "\n\n<script>\n".data

def scriptClose : List Char := "\n</script>\n\n".data

def htmlCloseTag : List Char := "</html>".data

/-- Last step of `patch_html` (lines 330-334): the sanity check that the
document still has a closing html tag (case-insensitively); on failure the
source raises `ValueError`, modelled as `none`. -/
def phSanity (c3 : List Char) : Option (List Char) :=
  if pySub htmlCloseTag (pyLower (apply_base_css_fixes c3)) then
    some (apply_base_css_fixes c3)
  else none

/-- `patch_html` after the style-tag insertion (lines 324-328): find the
closing body tag of `c2` and splice the JS block (wrapped in a script
element) in front of it; `none` models the `ValueError` raised when no
closing body tag exists. -/
def phBody (c2 : List Char) : Option (List Char) :=
  match findBodyClose c2 with
  | none => none
  | some bc => phSanity (c2.take bc ++ scriptOpen ++ JS_PATCH ++ scriptClose ++ c2.drop bc)

/-- `patch_html` after marker-block removal (lines 318-322): find the closing
style tag of the cleaned text and splice the CSS block in front of it; `none`
models the `ValueError` raised when no closing style tag exists. -/
def phStyle (cleaned : List Char) : Option (List Char) :=
  match findStyleClose cleaned with
  | none => none
  | some sc => phBody (cleaned.take sc ++ nl2 ++ CSS_PATCH ++ nl2 ++ cleaned.drop sc)

/-- `patch_html` (lines 314-335) as a function from the text read from the
input file to the text written to the output file; `none` models any raised
`ValueError` (missing style close, missing body close, or a result without a
closing html tag), in which case nothing is written. -/
def patch_html (raw : List Char) : Option (List Char) :=
  phStyle (remove_existing_patch raw)

/-- `main(argv)` of the Layout Fixer (lines 338-362).  The input path is
modelled as a stem/suffix pair (`Path.stem` / `Path.suffix` of the resolved
input), its readable content as `Option (List Char)` (`none` = the path does
not name an existing file), the optional `--out` argument as
`Option (List Char)` and the timestamp as `ts`.  The result is the process
exit code together with the list of `(path, content)` writes performed. -/
def layoutOutPath (stem suffix ts : List Char) (outArg : Option (List Char)) : List Char :=
  match outArg with
  | some o => o
  | none => stem ++ (".fixed.").data ++ ts ++ suffix

def layoutMain (stem suffix ts : List Char) (content : Option (List Char))
    (outArg : Option (List Char)) : Nat × List ((List Char) × (List Char)) :=
  match content with
  | none => (2, [])
  | some raw =>
    match patch_html raw with
    | none => (1, [])
    | some out => (0, [(layoutOutPath stem suffix ts outArg, out)])

/-!
## Window-scan machinery

Kernel reduction of a full scan over the multi-kilobyte texts involved in
the Layout Fixer claims is too deep for one `decide`, so long scans are
split into bounded windows: `noOccWithin n s m` checks that no occurrence of
`n` starts within the first `m` positions of `s` (looking past position `m`
only as far as a prefix test needs), and the skip lemmas below convert such
window checks into facts about `pyFindAux` / `findCloseAux`.
-/

/-- No occurrence of `n` starts within the first `m` positions of `s`. -/
def noOccWithin (n : List Char) : List Char → Nat → Bool
  | _, 0 => true
  | s, m + 1 =>
    if n.isPrefixOf s then false
    else
      match s with
      | [] => true
      | _ :: t => noOccWithin n t m

theorem noOccWithin_cons (n : List Char) (c : Char) (t : List Char) (m : Nat) :
    noOccWithin n (c :: t) (m + 1) =
      if n.isPrefixOf (c :: t) then false else noOccWithin n t m := rfl

theorem pyFindAux_skip (n b : List Char) : ∀ (a : List Char) (i : Nat),
    noOccWithin n (a ++ b) a.length = true →
    pyFindAux n (a ++ b) i = pyFindAux n b (i + a.length) := by
  intro a
  induction a with
  | nil => intro i _; simp
  | cons c t ih =>
    intro i h
    rw [List.cons_append, List.length_cons, noOccWithin_cons] at h
    rw [List.cons_append, pyFindAux_cons]
    split
    · rename_i hp
      rw [if_pos hp] at h
      simp at h
    · rename_i hp
      rw [if_neg hp] at h
      rw [ih (i + 1) h, List.length_cons]
      congr 1
      omega

theorem pyFindAux_of_prefix (n s : List Char) (i : Nat)
    (h : n.isPrefixOf s = true) : pyFindAux n s i = some i := by
  cases s with
  | nil => rw [pyFindAux_nil, if_pos h]
  | cons c t => rw [pyFindAux_cons, if_pos h]

theorem pyFindAux_nil_none (n : List Char) (i : Nat) (h : n ≠ []) :
    pyFindAux n [] i = none := by
  rw [pyFindAux_nil]
  cases n with
  | nil => exact absurd rfl h
  | cons c t => simp [List.isPrefixOf]

theorem pyFind_def (s n : List Char) : pyFind s n = pyFindAux n s 0 := rfl

/-- No `</tag\s*>` match starts within the first `m` positions of `s`. -/
def noTagWithin (tag : List Char) : List Char → Nat → Bool
  | _, 0 => true
  | s, m + 1 =>
    if tagCloseAt tag s then false
    else
      match s with
      | [] => true
      | _ :: t => noTagWithin tag t m

theorem noTagWithin_cons (tag : List Char) (c : Char) (t : List Char) (m : Nat) :
    noTagWithin tag (c :: t) (m + 1) =
      if tagCloseAt tag (c :: t) then false else noTagWithin tag t m := rfl

theorem findCloseAux_nil (tag : List Char) (i : Nat) :
    findCloseAux tag [] i = if tagCloseAt tag [] then some i else none := by
  cases i <;> rfl

theorem findCloseAux_cons (tag : List Char) (c : Char) (t : List Char) (i : Nat) :
    findCloseAux tag (c :: t) i =
      if tagCloseAt tag (c :: t) then some i else findCloseAux tag t (i + 1) := by
  cases i <;> rfl

theorem findCloseAux_skip (tag b : List Char) : ∀ (a : List Char) (i : Nat),
    noTagWithin tag (a ++ b) a.length = true →
    findCloseAux tag (a ++ b) i = findCloseAux tag b (i + a.length) := by
  intro a
  induction a with
  | nil => intro i _; simp
  | cons c t ih =>
    intro i h
    rw [List.cons_append, List.length_cons, noTagWithin_cons] at h
    rw [List.cons_append, findCloseAux_cons]
    split
    · rename_i hp
      rw [if_pos hp] at h
      simp at h
    · rename_i hp
      rw [if_neg hp] at h
      rw [ih (i + 1) h, List.length_cons]
      congr 1
      omega

theorem findCloseAux_of_tag (tag s : List Char) (i : Nat)
    (h : tagCloseAt tag s = true) : findCloseAux tag s i = some i := by
  cases s with
  | nil => rw [findCloseAux_nil, if_pos h]
  | cons c t => rw [findCloseAux_cons, if_pos h]

/-! Stepping lemmas for `removeBetweenF`, `pyCountF`, and `lenT`. -/

theorem removeBetweenF_not_found (fuel : Nat) (b e s : List Char)
    (h : pyFind s b = none) : removeBetweenF fuel b e s = s := by
  cases fuel with
  | zero => rfl
  | succ f =>
    unfold removeBetweenF
    rw [h]

theorem removeBetweenF_step (fuel : Nat) (b e s : List Char) (i g : Nat)
    (h1 : pyFind s b = some i) (h2 : pyFind (s.drop (i + b.length)) e = some g) :
    removeBetweenF (fuel + 1) b e s =
      s.take i ++ removeBetweenF fuel b e (s.drop (i + b.length + g + e.length)) := by
  conv_lhs => unfold removeBetweenF
  simp only [h1, h2]

theorem pyCountF_zero_of_none (fuel : Nat) (hay n : List Char)
    (h : pyFind hay n = none) : pyCountF fuel hay n = 0 := by
  cases fuel with
  | zero => rfl
  | succ f =>
    unfold pyCountF
    rw [h]

theorem pyCountF_succ_of_some (fuel : Nat) (hay n : List Char) (i : Nat)
    (h : pyFind hay n = some i) :
    pyCountF (fuel + 1) hay n = 1 + pyCountF fuel (hay.drop (i + n.length)) n := by
  conv_lhs => unfold pyCountF
  simp only [h]

theorem lenT_eq {α : Type} : ∀ (l : List α) (n : Nat), lenT l n = l.length + n := by
  intro l
  induction l with
  | nil => intro n; simp [lenT]
  | cons c t ih =>
    intro n
    cases n with
    | zero => rw [show lenT (c :: t) 0 = lenT t 1 from rfl, ih]; simp
    | succ m => rw [show lenT (c :: t) (m + 1) = lenT t (m + 2) from rfl, ih]; simp; omega

theorem listLen_eq {α : Type} (l : List α) : listLen l = l.length := by
  simp [listLen, lenT_eq]

/-- `pySub` is monotone under prepending text (an occurrence in the suffix is
an occurrence in the whole). -/
theorem pySub_append_left (n a b : List Char) (h : pySub n b = true) :
    pySub n (a ++ b) = true := by
  rw [ pySub_iff_infix] at h ⊢
  exact h.trans (List.suffix_append a b).isInfix

theorem pyLower_append (a b : List Char) : pyLower (a ++ b) = pyLower a ++ pyLower b :=
  List.map_append pyToLower a b

/-!
## Concrete Layout Fixer runs

`exHtml` is a minimal well-formed input (it has a closing style tag, a
closing body tag and a closing html tag); `OUT1` is what the first run of
`patch_html` writes for it and `OUT2` what a second run on `OUT1` writes.
-/

/-- A minimal HTML input accepted by the Layout Fixer. -/
def exHtml : List Char := "<style></style><body></body></html>".data

/-- The part of `exHtml` before its closing style tag. -/
def exStyle : List Char := "<style>".data

/-- The part of `exHtml` between the style insertion point and the closing
body tag. -/
def exMid : List Char := "</style><body>".data

/-- The part of `exHtml` from its closing body tag on. -/
def exTail : List Char := "</body></html>".data

/-- `exHtml` with the first 7 characters removed. -/
def exDrop7 : List Char := "</style><body></body></html>".data

/-- The output of the first `patch_html` run on `exHtml`. -/
def OUT1 : List Char :=
  exStyle ++ nl2 ++ CSS_PATCH ++ nl2 ++ exMid ++ scriptOpen ++ JS_PATCH ++ scriptClose ++ exTail

/-- The output of the second `patch_html` run (on `OUT1`): the CSS block was
stripped and re-inserted, but the JS block of `OUT1` was not recognised (its
begin marker never occurs in the injected text), so a second copy of the
script element is added. -/
def OUT2 : List Char :=
  exStyle ++ nl2 ++ nl2 ++ nl2 ++ CSS_PATCH ++ nl2 ++ exMid ++
    scriptOpen ++ JS_PATCH ++ scriptClose ++ scriptOpen ++ JS_PATCH ++ scriptClose ++ exTail

theorem isPrefixOf_append_self (l r : List Char) : l.isPrefixOf (l ++ r) = true := by
  rw [List.isPrefixOf_iff_prefix]
  exact List.prefix_append l r

theorem pyFindAux_none_of_noOcc (n : List Char) (hn : n ≠ []) :
    ∀ (s : List Char) (i : Nat), noOccWithin n s s.length = true →
      pyFindAux n s i = none := by
  intro s
  induction s with
  | nil => intro i _; exact pyFindAux_nil_none n i hn
  | cons c t ih =>
    intro i h
    rw [List.length_cons, noOccWithin_cons] at h
    rw [pyFindAux_cons]
    split
    · rename_i hp
      rw [if_pos hp] at h
      simp at h
    · rename_i hp
      rw [if_neg hp] at h
      exact ih (i + 1) h

theorem cssMid_len : cssMid.length = 2853 := by rw [← listLen_eq]; decide

theorem jsMid1_len : jsMid1.length = 2441 := by rw [← listLen_eq]; decide

theorem jsMid2_len : jsMid2.length = 2440 := by rw [← listLen_eq]; decide

theorem pyFindAux_skip' (n b a : List Char) (m i : Nat) (hm : a.length = m)
    (h : noOccWithin n (a ++ b) m = true) :
    pyFindAux n (a ++ b) i = pyFindAux n b (i + m) := by
  subst hm
  exact pyFindAux_skip n b a i h

theorem findCloseAux_skip' (tag b a : List Char) (m i : Nat) (hm : a.length = m)
    (h : noTagWithin tag (a ++ b) m = true) :
    findCloseAux tag (a ++ b) i = findCloseAux tag b (i + m) := by
  subst hm
  exact findCloseAux_skip tag b a i h

theorem exStyle_len : exStyle.length = 7 := by decide

theorem nl2_len : nl2.length = 2 := by decide

theorem cbLen : PATCH_MARKER_CSS_BEGIN.length = 36 := by decide

theorem ceLen : PATCH_MARKER_CSS_END.length = 34 := by decide

theorem jbLen : PATCH_MARKER_JS_BEGIN.length = 39 := by decide

theorem jeLen : PATCH_MARKER_JS_END.length = 37 := by decide

theorem exMid_len : exMid.length = 14 := by decide

theorem exTail_len : exTail.length = 14 := by decide

theorem scriptOpen_len : scriptOpen.length = 11 := by decide

theorem scriptClose_len : scriptClose.length = 12 := by decide

/-! Rest chains of the first run: `c2run1` is the text after the CSS
insertion of the first run, written as a right-associated chain of the named
pieces. -/

def r1A : List Char := nl2 ++ (exMid ++ exTail)

def r1B : List Char := PATCH_MARKER_CSS_END ++ r1A

def r1C : List Char := cssMid ++ r1B

def r1D : List Char := PATCH_MARKER_CSS_BEGIN ++ r1C

def r1E : List Char := nl2 ++ r1D

def c2run1 : List Char := exStyle ++ r1E

theorem r1_clean : remove_existing_patch exHtml = exHtml := by
  have hcss : removeBetween PATCH_MARKER_CSS_BEGIN PATCH_MARKER_CSS_END exHtml = exHtml :=
    removeBetweenF_not_found _ _ _ _ (by decide)
  show removeBetween PATCH_MARKER_JS_BEGIN PATCH_MARKER_JS_END
      (removeBetween PATCH_MARKER_CSS_BEGIN PATCH_MARKER_CSS_END exHtml) = exHtml
  rw [hcss]
  exact removeBetweenF_not_found _ _ _ _ (by decide)

theorem r1_style : findStyleClose exHtml = some 7 := by decide

theorem r1_body : findBodyClose c2run1 = some 2948 := by
  show findCloseAux (("</body").data) (exStyle ++ r1E) 0 = some 2948
  rw [findCloseAux_skip' (("</body").data) r1E exStyle 7 _ exStyle_len (by decide)]
  show findCloseAux (("</body").data) (nl2 ++ r1D) (0 + 7) = some 2948
  rw [findCloseAux_skip' (("</body").data) r1D nl2 2 _ nl2_len (by decide)]
  show findCloseAux (("</body").data) (PATCH_MARKER_CSS_BEGIN ++ r1C) (0 + 7 + 2) = some 2948
  rw [findCloseAux_skip' (("</body").data) r1C PATCH_MARKER_CSS_BEGIN 36 _ cbLen (by decide)]
  show findCloseAux (("</body").data) (cssMid ++ r1B) (0 + 7 + 2 + 36) = some 2948
  rw [findCloseAux_skip' (("</body").data) r1B cssMid 2853 _ cssMid_len (by decide)]
  show findCloseAux (("</body").data) (PATCH_MARKER_CSS_END ++ r1A) (0 + 7 + 2 + 36 + 2853) =
    some 2948
  rw [findCloseAux_skip' (("</body").data) r1A PATCH_MARKER_CSS_END 34 _ ceLen (by decide)]
  show findCloseAux (("</body").data) (nl2 ++ (exMid ++ exTail)) (0 + 7 + 2 + 36 + 2853 + 34) =
    some 2948
  rw [findCloseAux_skip' (("</body").data) (exMid ++ exTail) nl2 2 _ nl2_len (by decide)]
  rw [findCloseAux_skip' (("</body").data) exTail exMid 14 _ exMid_len (by decide)]
  rw [findCloseAux_of_tag (("</body").data) exTail _ (by decide)]

theorem exDrop7_split : exDrop7 = exMid ++ exTail := by decide

theorem out1_sanity : pySub htmlCloseTag (pyLower OUT1) = true := by
  have h : OUT1 = (exStyle ++ nl2 ++ CSS_PATCH ++ nl2 ++ exMid ++ scriptOpen ++ JS_PATCH ++
      scriptClose) ++ exTail := by
    simp [OUT1, List.append_assoc]
  rw [h, pyLower_append]
  exact pySub_append_left _ _ _ (by decide)

theorem run1_eq : patch_html exHtml = some OUT1 := by
  show phStyle (remove_existing_patch exHtml) = some OUT1
  rw [r1_clean]
  unfold phStyle
  rw [r1_style]
  show phBody (exHtml.take 7 ++ nl2 ++ CSS_PATCH ++ nl2 ++ exHtml.drop 7) = some OUT1
  have htk : exHtml.take 7 = exStyle := by decide
  have hdr : exHtml.drop 7 = exDrop7 := by decide
  rw [htk, hdr]
  have hc2 : exStyle ++ nl2 ++ CSS_PATCH ++ nl2 ++ exDrop7 = c2run1 := by
    simp [c2run1, r1E, r1D, r1C, r1B, r1A, CSS_PATCH, exDrop7_split, List.append_assoc]
  rw [hc2]
  unfold phBody
  rw [r1_body]
  show phSanity (c2run1.take 2948 ++ scriptOpen ++ JS_PATCH ++ scriptClose ++ c2run1.drop 2948) =
    some OUT1
  have hsplit : c2run1 = (exStyle ++ nl2 ++ PATCH_MARKER_CSS_BEGIN ++ cssMid ++
      PATCH_MARKER_CSS_END ++ nl2 ++ exMid) ++ exTail := by
    simp [c2run1, r1E, r1D, r1C, r1B, r1A, List.append_assoc]
  have hlen : (exStyle ++ nl2 ++ PATCH_MARKER_CSS_BEGIN ++ cssMid ++
      PATCH_MARKER_CSS_END ++ nl2 ++ exMid).length = 2948 := by
    simp [List.length_append, exStyle_len, nl2_len, cbLen, cssMid_len, ceLen, exMid_len]
  have htake : c2run1.take 2948 = exStyle ++ nl2 ++ PATCH_MARKER_CSS_BEGIN ++ cssMid ++
      PATCH_MARKER_CSS_END ++ nl2 ++ exMid := by
    rw [hsplit]; exact List.take_left' hlen
  have hdrop : c2run1.drop 2948 = exTail := by
    rw [hsplit]; exact List.drop_left' hlen
  rw [htake, hdrop]
  have ho : exStyle ++ nl2 ++ PATCH_MARKER_CSS_BEGIN ++ cssMid ++ PATCH_MARKER_CSS_END ++ nl2 ++
      exMid ++ scriptOpen ++ JS_PATCH ++ scriptClose ++ exTail = OUT1 := by
    simp [OUT1, CSS_PATCH, List.append_assoc]
  rw [ho]
  unfold phSanity
  simp only [apply_base_css_fixes, out1_sanity, if_true]

/-! Rest chains of the second run: `OUT1` written as a right-associated
chain of the named pieces (`out1exp`), the cleaned text after marker-block
removal (`cleaned2`) and the text after the CSS insertion (`c2run2`). -/

def q1A : List Char := scriptClose ++ exTail

def q1B : List Char := PATCH_MARKER_JS_END ++ q1A

def q1C : List Char := jsMid2 ++ q1B

def q1D : List Char := jsMid1 ++ q1C

def q1E : List Char := scriptOpen ++ q1D

def q1F : List Char := exMid ++ q1E

def q1G : List Char := nl2 ++ q1F

def q1H : List Char := PATCH_MARKER_CSS_END ++ q1G

def q1I : List Char := cssMid ++ q1H

def q1J : List Char := PATCH_MARKER_CSS_BEGIN ++ q1I

def q1K : List Char := nl2 ++ q1J

def out1exp : List Char := exStyle ++ q1K

theorem out1_exp : OUT1 = out1exp := by
  simp [OUT1, out1exp, q1K, q1J, q1I, q1H, q1G, q1F, q1E, q1D, q1C, q1B, q1A,
    CSS_PATCH, JS_PATCH, List.append_assoc]

theorem r2_css_find : pyFind OUT1 PATCH_MARKER_CSS_BEGIN = some 9 := by
  rw [out1_exp]
  show pyFindAux PATCH_MARKER_CSS_BEGIN (exStyle ++ q1K) 0 = some 9
  rw [pyFindAux_skip' PATCH_MARKER_CSS_BEGIN q1K exStyle 7 _ exStyle_len (by decide)]
  simp only [q1K]
  rw [pyFindAux_skip' PATCH_MARKER_CSS_BEGIN q1J nl2 2 _ nl2_len (by decide)]
  simp only [q1J]
  rw [ pyFindAux_of_prefix _ _ _ (isPrefixOf_append_self _ _)]

theorem out1_drop45 : OUT1.drop (9 + PATCH_MARKER_CSS_BEGIN.length) = cssMid ++ q1H := by
  rw [cbLen, out1_exp]
  have hsplit : out1exp = (exStyle ++ nl2 ++ PATCH_MARKER_CSS_BEGIN) ++ (cssMid ++ q1H) := by
    simp [out1exp, q1K, q1J, q1I, List.append_assoc]
  rw [hsplit]
  exact List.drop_left' (by simp [List.length_append, exStyle_len, nl2_len, cbLen])

theorem r2_css_end_find : pyFind (OUT1.drop (9 + PATCH_MARKER_CSS_BEGIN.length))
    PATCH_MARKER_CSS_END = some 2853 := by
  rw [out1_drop45]
  show pyFindAux PATCH_MARKER_CSS_END (cssMid ++ q1H) 0 = some 2853
  rw [pyFindAux_skip' PATCH_MARKER_CSS_END q1H cssMid 2853 _ cssMid_len (by decide)]
  simp only [q1H]
  rw [ pyFindAux_of_prefix _ _ _ (isPrefixOf_append_self _ _)]

theorem out1_take9 : OUT1.take 9 = exStyle ++ nl2 := by
  rw [out1_exp]
  have hsplit : out1exp = (exStyle ++ nl2) ++ q1J := by
    simp [out1exp, q1K, List.append_assoc]
  rw [hsplit]
  exact List.take_left' (by simp [List.length_append, exStyle_len, nl2_len])

theorem out1_drop2932 : OUT1.drop (9 + PATCH_MARKER_CSS_BEGIN.length + 2853 +
    PATCH_MARKER_CSS_END.length) = q1G := by
  rw [cbLen, ceLen, out1_exp]
  have hsplit : out1exp = (exStyle ++ nl2 ++ PATCH_MARKER_CSS_BEGIN ++ cssMid ++
      PATCH_MARKER_CSS_END) ++ q1G := by
    simp [out1exp, q1K, q1J, q1I, q1H, List.append_assoc]
  rw [hsplit]
  exact List.drop_left'
    (by simp [List.length_append, exStyle_len, nl2_len, cbLen, cssMid_len, ceLen])

theorem r2_rest_no_cb : pyFind q1G PATCH_MARKER_CSS_BEGIN = none := by
  show pyFindAux PATCH_MARKER_CSS_BEGIN q1G 0 = none
  simp only [q1G]
  rw [pyFindAux_skip' PATCH_MARKER_CSS_BEGIN q1F nl2 2 _ nl2_len (by decide)]
  simp only [q1F]
  rw [pyFindAux_skip' PATCH_MARKER_CSS_BEGIN q1E exMid 14 _ exMid_len (by decide)]
  simp only [q1E]
  rw [pyFindAux_skip' PATCH_MARKER_CSS_BEGIN q1D scriptOpen 11 _ scriptOpen_len (by decide)]
  simp only [q1D]
  rw [pyFindAux_skip' PATCH_MARKER_CSS_BEGIN q1C jsMid1 2441 _ jsMid1_len (by decide)]
  simp only [q1C]
  rw [pyFindAux_skip' PATCH_MARKER_CSS_BEGIN q1B jsMid2 2440 _ jsMid2_len (by decide)]
  simp only [q1B]
  rw [pyFindAux_skip' PATCH_MARKER_CSS_BEGIN q1A PATCH_MARKER_JS_END 37 _ jeLen (by decide)]
  simp only [q1A]
  rw [pyFindAux_skip' PATCH_MARKER_CSS_BEGIN exTail scriptClose 12 _ scriptClose_len
    (by decide)]
  exact pyFindAux_none_of_noOcc _ (by decide) _ _ (by decide)

def cleaned2 : List Char := (exStyle ++ nl2) ++ q1G

theorem r2_css_removed : removeBetween PATCH_MARKER_CSS_BEGIN PATCH_MARKER_CSS_END OUT1 =
    cleaned2 := by
  show removeBetweenF (listLen OUT1 + 1) PATCH_MARKER_CSS_BEGIN PATCH_MARKER_CSS_END OUT1 =
    cleaned2
  rw [removeBetweenF_step (listLen OUT1) _ _ _ 9 2853 r2_css_find r2_css_end_find]
  rw [out1_take9, out1_drop2932]
  rw [removeBetweenF_not_found _ _ _ _ r2_rest_no_cb]
  rfl

theorem r2_no_jb : pyFind cleaned2 PATCH_MARKER_JS_BEGIN = none := by
  have he : cleaned2 = exStyle ++ (nl2 ++ q1G) := by simp [cleaned2, List.append_assoc]
  rw [he]
  show pyFindAux PATCH_MARKER_JS_BEGIN (exStyle ++ (nl2 ++ q1G)) 0 = none
  rw [pyFindAux_skip' PATCH_MARKER_JS_BEGIN (nl2 ++ q1G) exStyle 7 _ exStyle_len (by decide)]
  rw [pyFindAux_skip' PATCH_MARKER_JS_BEGIN q1G nl2 2 _ nl2_len (by decide)]
  simp only [q1G]
  rw [pyFindAux_skip' PATCH_MARKER_JS_BEGIN q1F nl2 2 _ nl2_len (by decide)]
  simp only [q1F]
  rw [pyFindAux_skip' PATCH_MARKER_JS_BEGIN q1E exMid 14 _ exMid_len (by decide)]
  simp only [q1E]
  rw [pyFindAux_skip' PATCH_MARKER_JS_BEGIN q1D scriptOpen 11 _ scriptOpen_len (by decide)]
  simp only [q1D]
  rw [pyFindAux_skip' PATCH_MARKER_JS_BEGIN q1C jsMid1 2441 _ jsMid1_len (by decide)]
  simp only [q1C]
  rw [pyFindAux_skip' PATCH_MARKER_JS_BEGIN q1B jsMid2 2440 _ jsMid2_len (by decide)]
  simp only [q1B]
  rw [pyFindAux_skip' PATCH_MARKER_JS_BEGIN q1A PATCH_MARKER_JS_END 37 _ jeLen (by decide)]
  simp only [q1A]
  rw [pyFindAux_skip' PATCH_MARKER_JS_BEGIN exTail scriptClose 12 _ scriptClose_len
    (by decide)]
  exact pyFindAux_none_of_noOcc _ (by decide) _ _ (by decide)

theorem r2_clean : remove_existing_patch OUT1 = cleaned2 := by
  show removeBetween PATCH_MARKER_JS_BEGIN PATCH_MARKER_JS_END
      (removeBetween PATCH_MARKER_CSS_BEGIN PATCH_MARKER_CSS_END OUT1) = cleaned2
  rw [r2_css_removed]
  exact removeBetweenF_not_found _ _ _ _ r2_no_jb

theorem r2_style : findStyleClose cleaned2 = some 11 := by
  have he : cleaned2 = exStyle ++ (nl2 ++ q1G) := by simp [cleaned2, List.append_assoc]
  rw [he]
  show findCloseAux (("</style").data) (exStyle ++ (nl2 ++ q1G)) 0 = some 11
  rw [findCloseAux_skip' (("</style").data) (nl2 ++ q1G) exStyle 7 _ exStyle_len (by decide)]
  rw [findCloseAux_skip' (("</style").data) q1G nl2 2 _ nl2_len (by decide)]
  simp only [q1G]
  rw [findCloseAux_skip' (("</style").data) q1F nl2 2 _ nl2_len (by decide)]
  simp only [q1F]
  rw [findCloseAux_of_tag (("</style").data) (exMid ++ q1E) _ (by decide)]

theorem cleaned2_take11 : cleaned2.take 11 = exStyle ++ nl2 ++ nl2 := by
  have hsplit : cleaned2 = (exStyle ++ nl2 ++ nl2) ++ q1F := by
    simp [cleaned2, q1G, List.append_assoc]
  rw [hsplit]
  rw [List.take_left' (by simp [List.length_append, exStyle_len, nl2_len])]

theorem cleaned2_drop11 : cleaned2.drop 11 = q1F := by
  have hsplit : cleaned2 = (exStyle ++ nl2 ++ nl2) ++ q1F := by
    simp [cleaned2, q1G, List.append_assoc]
  rw [hsplit]
  exact List.drop_left' (by simp [List.length_append, exStyle_len, nl2_len])

def c2run2 : List Char :=
  exStyle ++ (nl2 ++ (nl2 ++ (nl2 ++ (PATCH_MARKER_CSS_BEGIN ++ (cssMid ++
    (PATCH_MARKER_CSS_END ++ q1G))))))

theorem r2_body : findBodyClose c2run2 = some 7893 := by
  show findCloseAux (("</body").data) (exStyle ++ (nl2 ++ (nl2 ++ (nl2 ++
    (PATCH_MARKER_CSS_BEGIN ++ (cssMid ++ (PATCH_MARKER_CSS_END ++ q1G))))))) 0 = some 7893
  rw [findCloseAux_skip' (("</body").data) (nl2 ++ (nl2 ++ (nl2 ++ (PATCH_MARKER_CSS_BEGIN ++
    (cssMid ++ (PATCH_MARKER_CSS_END ++ q1G)))))) exStyle 7 _ exStyle_len (by decide)]
  rw [findCloseAux_skip' (("</body").data) (nl2 ++ (nl2 ++ (PATCH_MARKER_CSS_BEGIN ++
    (cssMid ++ (PATCH_MARKER_CSS_END ++ q1G))))) nl2 2 _ nl2_len (by decide)]
  rw [findCloseAux_skip' (("</body").data) (nl2 ++ (PATCH_MARKER_CSS_BEGIN ++
    (cssMid ++ (PATCH_MARKER_CSS_END ++ q1G)))) nl2 2 _ nl2_len (by decide)]
  rw [findCloseAux_skip' (("</body").data) (PATCH_MARKER_CSS_BEGIN ++
    (cssMid ++ (PATCH_MARKER_CSS_END ++ q1G))) nl2 2 _ nl2_len (by decide)]
  rw [findCloseAux_skip' (("</body").data) (cssMid ++ (PATCH_MARKER_CSS_END ++ q1G))
    PATCH_MARKER_CSS_BEGIN 36 _ cbLen (by decide)]
  rw [findCloseAux_skip' (("</body").data) (PATCH_MARKER_CSS_END ++ q1G) cssMid 2853 _
    cssMid_len (by decide)]
  rw [findCloseAux_skip' (("</body").data) q1G PATCH_MARKER_CSS_END 34 _ ceLen (by decide)]
  simp only [q1G]
  rw [findCloseAux_skip' (("</body").data) q1F nl2 2 _ nl2_len (by decide)]
  simp only [q1F]
  rw [findCloseAux_skip' (("</body").data) q1E exMid 14 _ exMid_len (by decide)]
  simp only [q1E]
  rw [findCloseAux_skip' (("</body").data) q1D scriptOpen 11 _ scriptOpen_len (by decide)]
  simp only [q1D]
  rw [findCloseAux_skip' (("</body").data) q1C jsMid1 2441 _ jsMid1_len (by decide)]
  simp only [q1C]
  rw [findCloseAux_skip' (("</body").data) q1B jsMid2 2440 _ jsMid2_len (by decide)]
  simp only [q1B]
  rw [findCloseAux_skip' (("</body").data) q1A PATCH_MARKER_JS_END 37 _ jeLen (by decide)]
  simp only [q1A]
  rw [findCloseAux_skip' (("</body").data) exTail scriptClose 12 _ scriptClose_len (by decide)]
  rw [findCloseAux_of_tag (("</body").data) exTail _ (by decide)]

theorem c2run2_split : c2run2 = (exStyle ++ nl2 ++ nl2 ++ nl2 ++ PATCH_MARKER_CSS_BEGIN ++
    cssMid ++ PATCH_MARKER_CSS_END ++ nl2 ++ exMid ++ scriptOpen ++ jsMid1 ++ jsMid2 ++
    PATCH_MARKER_JS_END ++ scriptClose) ++ exTail := by
  simp [c2run2, q1G, q1F, q1E, q1D, q1C, q1B, q1A, List.append_assoc]

theorem c2run2_pre_len : (exStyle ++ nl2 ++ nl2 ++ nl2 ++ PATCH_MARKER_CSS_BEGIN ++
    cssMid ++ PATCH_MARKER_CSS_END ++ nl2 ++ exMid ++ scriptOpen ++ jsMid1 ++ jsMid2 ++
    PATCH_MARKER_JS_END ++ scriptClose).length = 7893 := by
  simp [List.length_append, exStyle_len, nl2_len, cbLen, cssMid_len, ceLen, exMid_len,
    scriptOpen_len, jsMid1_len, jsMid2_len, jeLen, scriptClose_len]

theorem c2run2_take : c2run2.take 7893 = exStyle ++ nl2 ++ nl2 ++ nl2 ++
    PATCH_MARKER_CSS_BEGIN ++ cssMid ++ PATCH_MARKER_CSS_END ++ nl2 ++ exMid ++ scriptOpen ++
    jsMid1 ++ jsMid2 ++ PATCH_MARKER_JS_END ++ scriptClose := by
  rw [c2run2_split]
  exact List.take_left' c2run2_pre_len

theorem c2run2_drop : c2run2.drop 7893 = exTail := by
  rw [c2run2_split]
  exact List.drop_left' c2run2_pre_len

theorem out2_sanity : pySub htmlCloseTag (pyLower OUT2) = true := by
  have h : OUT2 = (exStyle ++ nl2 ++ nl2 ++ nl2 ++ CSS_PATCH ++ nl2 ++ exMid ++ scriptOpen ++
      JS_PATCH ++ scriptClose ++ scriptOpen ++ JS_PATCH ++ scriptClose) ++ exTail := by
    simp [OUT2, List.append_assoc]
  rw [h, pyLower_append]
  exact pySub_append_left _ _ _ (by decide)

theorem run2_eq : patch_html OUT1 = some OUT2 := by
  show phStyle (remove_existing_patch OUT1) = some OUT2
  rw [r2_clean]
  unfold phStyle
  rw [r2_style]
  show phBody (cleaned2.take 11 ++ nl2 ++ CSS_PATCH ++ nl2 ++ cleaned2.drop 11) = some OUT2
  rw [cleaned2_take11, cleaned2_drop11]
  have hc2 : exStyle ++ nl2 ++ nl2 ++ nl2 ++ CSS_PATCH ++ nl2 ++ q1F = c2run2 := by
    simp [c2run2, q1G, CSS_PATCH, List.append_assoc]
  rw [hc2]
  unfold phBody
  rw [r2_body]
  show phSanity (c2run2.take 7893 ++ scriptOpen ++ JS_PATCH ++ scriptClose ++
    c2run2.drop 7893) = some OUT2
  rw [c2run2_take, c2run2_drop]
  have ho : exStyle ++ nl2 ++ nl2 ++ nl2 ++ PATCH_MARKER_CSS_BEGIN ++ cssMid ++
      PATCH_MARKER_CSS_END ++ nl2 ++ exMid ++ scriptOpen ++ jsMid1 ++ jsMid2 ++
      PATCH_MARKER_JS_END ++ scriptClose ++ scriptOpen ++ JS_PATCH ++ scriptClose ++ exTail =
      OUT2 := by
    simp [OUT2, CSS_PATCH, JS_PATCH, List.append_assoc]
  rw [ho]
  unfold phSanity
  simp only [apply_base_css_fixes, out2_sanity, if_true]

/-! Rest chains of `OUT2`, used to count the JS end markers it contains. -/

def p2A : List Char := scriptClose ++ exTail

def p2B : List Char := PATCH_MARKER_JS_END ++ p2A

def p2C : List Char := jsMid2 ++ p2B

def p2D : List Char := jsMid1 ++ p2C

def p2E : List Char := scriptOpen ++ p2D

def p2F : List Char := scriptClose ++ p2E

def p2G : List Char := PATCH_MARKER_JS_END ++ p2F

def p2H : List Char := jsMid2 ++ p2G

def p2I : List Char := jsMid1 ++ p2H

def p2J : List Char := scriptOpen ++ p2I

def p2K : List Char := exMid ++ p2J

def p2L : List Char := nl2 ++ p2K

def p2M : List Char := PATCH_MARKER_CSS_END ++ p2L

def p2N : List Char := cssMid ++ p2M

def p2O : List Char := PATCH_MARKER_CSS_BEGIN ++ p2N

def p2P : List Char := nl2 ++ p2O

def p2Q : List Char := nl2 ++ p2P

def p2R : List Char := nl2 ++ p2Q

def out2exp : List Char := exStyle ++ p2R

theorem out2_exp : OUT2 = out2exp := by
  simp [OUT2, out2exp, p2R, p2Q, p2P, p2O, p2N, p2M, p2L, p2K, p2J, p2I, p2H, p2G, p2F, p2E,
    p2D, p2C, p2B, p2A, CSS_PATCH, JS_PATCH, List.append_assoc]

theorem out2_je1 : pyFind OUT2 PATCH_MARKER_JS_END = some 7844 := by
  rw [out2_exp]
  show pyFindAux PATCH_MARKER_JS_END (exStyle ++ p2R) 0 = some 7844
  rw [pyFindAux_skip' PATCH_MARKER_JS_END p2R exStyle 7 _ exStyle_len (by decide)]
  simp only [p2R]
  rw [pyFindAux_skip' PATCH_MARKER_JS_END p2Q nl2 2 _ nl2_len (by decide)]
  simp only [p2Q]
  rw [pyFindAux_skip' PATCH_MARKER_JS_END p2P nl2 2 _ nl2_len (by decide)]
  simp only [p2P]
  rw [pyFindAux_skip' PATCH_MARKER_JS_END p2O nl2 2 _ nl2_len (by decide)]
  simp only [p2O]
  rw [pyFindAux_skip' PATCH_MARKER_JS_END p2N PATCH_MARKER_CSS_BEGIN 36 _ cbLen (by decide)]
  simp only [p2N]
  rw [pyFindAux_skip' PATCH_MARKER_JS_END p2M cssMid 2853 _ cssMid_len (by decide)]
  simp only [p2M]
  rw [pyFindAux_skip' PATCH_MARKER_JS_END p2L PATCH_MARKER_CSS_END 34 _ ceLen (by decide)]
  simp only [p2L]
  rw [pyFindAux_skip' PATCH_MARKER_JS_END p2K nl2 2 _ nl2_len (by decide)]
  simp only [p2K]
  rw [pyFindAux_skip' PATCH_MARKER_JS_END p2J exMid 14 _ exMid_len (by decide)]
  simp only [p2J]
  rw [pyFindAux_skip' PATCH_MARKER_JS_END p2I scriptOpen 11 _ scriptOpen_len (by decide)]
  simp only [p2I]
  rw [pyFindAux_skip' PATCH_MARKER_JS_END p2H jsMid1 2441 _ jsMid1_len (by decide)]
  simp only [p2H]
  rw [pyFindAux_skip' PATCH_MARKER_JS_END p2G jsMid2 2440 _ jsMid2_len (by decide)]
  simp only [p2G]
  rw [ pyFindAux_of_prefix _ _ _ (isPrefixOf_append_self _ _)]

theorem out2_drop7881 : OUT2.drop (7844 + PATCH_MARKER_JS_END.length) = p2F := by
  rw [jeLen, out2_exp]
  have hsplit : out2exp = (exStyle ++ nl2 ++ nl2 ++ nl2 ++ PATCH_MARKER_CSS_BEGIN ++ cssMid ++
      PATCH_MARKER_CSS_END ++ nl2 ++ exMid ++ scriptOpen ++ jsMid1 ++ jsMid2 ++
      PATCH_MARKER_JS_END) ++ p2F := by
    simp [out2exp, p2R, p2Q, p2P, p2O, p2N, p2M, p2L, p2K, p2J, p2I, p2H, p2G,
      List.append_assoc]
  rw [hsplit]
  exact List.drop_left' (by
    simp [List.length_append, exStyle_len, nl2_len, cbLen, cssMid_len, ceLen, exMid_len,
      scriptOpen_len, jsMid1_len, jsMid2_len, jeLen])

theorem p2F_je : pyFind p2F PATCH_MARKER_JS_END = some 4904 := by
  show pyFindAux PATCH_MARKER_JS_END p2F 0 = some 4904
  simp only [p2F]
  rw [pyFindAux_skip' PATCH_MARKER_JS_END p2E scriptClose 12 _ scriptClose_len (by decide)]
  simp only [p2E]
  rw [pyFindAux_skip' PATCH_MARKER_JS_END p2D scriptOpen 11 _ scriptOpen_len (by decide)]
  simp only [p2D]
  rw [pyFindAux_skip' PATCH_MARKER_JS_END p2C jsMid1 2441 _ jsMid1_len (by decide)]
  simp only [p2C]
  rw [pyFindAux_skip' PATCH_MARKER_JS_END p2B jsMid2 2440 _ jsMid2_len (by decide)]
  simp only [p2B]
  rw [ pyFindAux_of_prefix _ _ _ (isPrefixOf_append_self _ _)]

theorem p2F_drop : p2F.drop (4904 + PATCH_MARKER_JS_END.length) = p2A := by
  rw [jeLen]
  have hsplit : p2F = (scriptClose ++ scriptOpen ++ jsMid1 ++ jsMid2 ++
      PATCH_MARKER_JS_END) ++ p2A := by
    simp [p2F, p2E, p2D, p2C, p2B, List.append_assoc]
  rw [hsplit]
  exact List.drop_left' (by
    simp [List.length_append, scriptClose_len, scriptOpen_len, jsMid1_len, jsMid2_len, jeLen])

theorem out2_len : OUT2.length = 12848 := by
  simp [OUT2, CSS_PATCH, JS_PATCH, List.length_append, exStyle_len, nl2_len, cbLen,
    cssMid_len, ceLen, exMid_len, scriptOpen_len, jsMid1_len, jsMid2_len, jeLen,
    scriptClose_len, exTail_len]

theorem out1_len : OUT1.length = 7903 := by
  simp [OUT1, CSS_PATCH, JS_PATCH, List.length_append, exStyle_len, nl2_len, cbLen,
    cssMid_len, ceLen, exMid_len, scriptOpen_len, jsMid1_len, jsMid2_len, jeLen,
    scriptClose_len, exTail_len]

theorem out2_je_count : pyCount OUT2 PATCH_MARKER_JS_END = 2 := by
  show pyCountF (listLen OUT2 + 1) OUT2 PATCH_MARKER_JS_END = 2
  rw [pyCountF_succ_of_some (listLen OUT2) _ _ 7844 out2_je1]
  rw [out2_drop7881]
  rw [listLen_eq, out2_len]
  rw [show (12848 : Nat) = 12847 + 1 from rfl]
  rw [pyCountF_succ_of_some 12847 _ _ 4904 p2F_je]
  rw [p2F_drop]
  rw [pyCountF_zero_of_none _ _ _ (by decide)]

theorem out2_ne_out1 : OUT2 ≠ OUT1 := by
  intro h
  have hlen := congrArg List.length h
  rw [out1_len, out2_len] at hlen
  exact absurd hlen (by decide)

theorem out1_je1 : pyFind OUT1 PATCH_MARKER_JS_END = some 7840 := by
  rw [out1_exp]
  show pyFindAux PATCH_MARKER_JS_END (exStyle ++ q1K) 0 = some 7840
  rw [pyFindAux_skip' PATCH_MARKER_JS_END q1K exStyle 7 _ exStyle_len (by decide)]
  simp only [q1K]
  rw [pyFindAux_skip' PATCH_MARKER_JS_END q1J nl2 2 _ nl2_len (by decide)]
  simp only [q1J]
  rw [pyFindAux_skip' PATCH_MARKER_JS_END q1I PATCH_MARKER_CSS_BEGIN 36 _ cbLen (by decide)]
  simp only [q1I]
  rw [pyFindAux_skip' PATCH_MARKER_JS_END q1H cssMid 2853 _ cssMid_len (by decide)]
  simp only [q1H]
  rw [pyFindAux_skip' PATCH_MARKER_JS_END q1G PATCH_MARKER_CSS_END 34 _ ceLen (by decide)]
  simp only [q1G]
  rw [pyFindAux_skip' PATCH_MARKER_JS_END q1F nl2 2 _ nl2_len (by decide)]
  simp only [q1F]
  rw [pyFindAux_skip' PATCH_MARKER_JS_END q1E exMid 14 _ exMid_len (by decide)]
  simp only [q1E]
  rw [pyFindAux_skip' PATCH_MARKER_JS_END q1D scriptOpen 11 _ scriptOpen_len (by decide)]
  simp only [q1D]
  rw [pyFindAux_skip' PATCH_MARKER_JS_END q1C jsMid1 2441 _ jsMid1_len (by decide)]
  simp only [q1C]
  rw [pyFindAux_skip' PATCH_MARKER_JS_END q1B jsMid2 2440 _ jsMid2_len (by decide)]
  simp only [q1B]
  rw [ pyFindAux_of_prefix _ _ _ (isPrefixOf_append_self _ _)]

theorem out1_drop7877 : OUT1.drop (7840 + PATCH_MARKER_JS_END.length) = q1A := by
  rw [jeLen, out1_exp]
  have hsplit : out1exp = (exStyle ++ nl2 ++ PATCH_MARKER_CSS_BEGIN ++ cssMid ++
      PATCH_MARKER_CSS_END ++ nl2 ++ exMid ++ scriptOpen ++ jsMid1 ++ jsMid2 ++
      PATCH_MARKER_JS_END) ++ q1A := by
    simp [out1exp, q1K, q1J, q1I, q1H, q1G, q1F, q1E, q1D, q1C, q1B, List.append_assoc]
  rw [hsplit]
  exact List.drop_left' (by
    simp [List.length_append, exStyle_len, nl2_len, cbLen, cssMid_len, ceLen, exMid_len,
      scriptOpen_len, jsMid1_len, jsMid2_len, jeLen])

theorem out1_je_count : pyCount OUT1 PATCH_MARKER_JS_END = 1 := by
  show pyCountF (listLen OUT1 + 1) OUT1 PATCH_MARKER_JS_END = 1
  rw [pyCountF_succ_of_some (listLen OUT1) _ _ 7840 out1_je1]
  rw [out1_drop7877]
  rw [pyCountF_zero_of_none _ _ _ (by decide)]

/-- Marker removal is the identity whenever the begin marker has no
occurrence in the text. -/
theorem removeBetween_not_present (b e s : List Char) (h : pySub b s = false) :
    removeBetween b e s = s := by
  cases hf : pyFind s b with
  | none => exact removeBetweenF_not_found _ _ _ _ hf
  | some v =>
    unfold pySub at h
    rw [hf] at h
    simp at h

/-- The JS begin marker literal never occurs in the injected JS block: the
block opens with a comment that spans several lines, so the terminating
sequence of the marker text is absent. -/
theorem js_exp : JS_PATCH = jsMid1 ++ (jsMid2 ++ PATCH_MARKER_JS_END) := by
  simp only [JS_PATCH, List.append_assoc]

theorem js_patch_no_begin : pySub PATCH_MARKER_JS_BEGIN JS_PATCH = false := by
  have hnone : pyFind JS_PATCH PATCH_MARKER_JS_BEGIN = none := by
    rw [pyFind_def, js_exp]
    rw [pyFindAux_skip' PATCH_MARKER_JS_BEGIN (jsMid2 ++ PATCH_MARKER_JS_END) jsMid1 2441 _
      jsMid1_len (by decide)]
    rw [pyFindAux_skip' PATCH_MARKER_JS_BEGIN PATCH_MARKER_JS_END jsMid2 2440 _
      jsMid2_len (by decide)]
    exact pyFindAux_none_of_noOcc _ (by decide) _ _ (by decide)
  unfold pySub
  rw [hnone]
  rfl

def wStem : List Char := "index".data

def wSuffix : List Char := ".html".data

theorem layoutMain_none : ∀ (stem suffix ts : List Char) (oa : Option (List Char)),
    layoutMain stem suffix ts none oa = (2, []) := by
  intro stem suffix ts oa
  rfl

theorem layoutMain_fail (stem suffix ts raw : List Char) (oa : Option (List Char))
    (h : patch_html raw = none) : layoutMain stem suffix ts (some raw) oa = (1, []) := by
  show (match patch_html raw with
    | none => (1, [])
    | some out => (0, [(layoutOutPath stem suffix ts oa, out)])) = (1, [])
  rw [h]

theorem layoutMain_some (stem suffix ts raw out : List Char) (oa : Option (List Char))
    (h : patch_html raw = some out) :
    layoutMain stem suffix ts (some raw) oa = (0, [(layoutOutPath stem suffix ts oa, out)]) := by
  show (match patch_html raw with
    | none => (1, [])
    | some o => (0, [(layoutOutPath stem suffix ts oa, o)])) =
    (0, [(layoutOutPath stem suffix ts oa, out)])
  rw [h]

/-- C4: running the Layout Fixer a second time on its own output is supposed
to replace the injected blocks, leaving exactly one CSS and one JS marker
block.  In fact the second run succeeds but duplicates the JS block: on the
minimal accepted input `exHtml` the first output contains one JS end marker
and the second output contains two (the JS begin marker literal never occurs
in the injected JS text, so the old JS block is never stripped). -/
theorem C4_second_run_duplicates_js :
    patch_html exHtml = some OUT1 ∧ patch_html OUT1 = some OUT2 ∧
    pyCount OUT1 PATCH_MARKER_JS_END = 1 ∧ pyCount OUT2 PATCH_MARKER_JS_END = 2 :=
  ⟨run1_eq, run2_eq, out1_je_count, out2_je_count⟩

/-- C7 counterexample: "never modifies the input file in place" fails when
`--out` names the input path itself: the run exits 0 and writes its output to
the input path (`wStem ++ wSuffix`). -/
theorem C7_cex :
    layoutMain wStem wSuffix wTs (some exHtml) (some (wStem ++ wSuffix)) =
      (0, [(wStem ++ wSuffix, OUT1)]) := by
  rw [layoutMain_some wStem wSuffix wTs exHtml OUT1 (some (wStem ++ wSuffix)) run1_eq]
  rfl

/-- C7 (amended): exit/output behaviour of the Layout Fixer.  A missing input
exits 2 and writes nothing; a failing `patch_html` (in particular a missing
closing style or body tag) exits 1 and writes nothing; on success without
`--out` it exits 0 and writes exactly one file at the default timestamped
path, which is never the input path.  (With an explicit `--out` the output
may coincide with the input path — see the counterexample.) -/
theorem C7_behaviour (stem suffix ts : List Char) (outArg : Option (List Char)) :
    layoutMain stem suffix ts none outArg = (2, []) ∧
    (∀ raw, patch_html raw = none → layoutMain stem suffix ts (some raw) outArg = (1, [])) ∧
    (∀ raw out, patch_html raw = some out →
        layoutMain stem suffix ts (some raw) none =
          (0, [(stem ++ (".fixed.").data ++ ts ++ suffix, out)]) ∧
        stem ++ (".fixed.").data ++ ts ++ suffix ≠ stem ++ suffix) ∧
    (∀ cl, findStyleClose cl = none → phStyle cl = none) ∧
    (∀ c2, findBodyClose c2 = none → phBody c2 = none) := by
  refine ⟨layoutMain_none stem suffix ts outArg, ?_, ?_, ?_, ?_⟩
  · intro raw h
    exact layoutMain_fail stem suffix ts raw outArg h
  · intro raw out h
    constructor
    · rw [layoutMain_some stem suffix ts raw out none h]
      rfl
    · intro heq
      have hlen := congrArg List.length heq
      have h7 : ((".fixed.").data).length = 7 := by decide
      simp only [List.length_append, h7] at hlen
      omega
  · intro cl h
    unfold phStyle
    rw [h]
  · intro c2 h
    unfold phBody
    rw [h]

/-- C7 witness: the amended behaviour at concrete inputs — a missing file, an
input with no closing style tag, and the minimal accepted input. -/
theorem C7_behaviour_w :
    layoutMain wStem wSuffix wTs none none = (2, []) ∧
    layoutMain wStem wSuffix wTs (some wX) none = (1, []) ∧
    (layoutMain wStem wSuffix wTs (some exHtml) none =
        (0, [(wStem ++ (".fixed.").data ++ wTs ++ wSuffix, OUT1)]) ∧
      wStem ++ (".fixed.").data ++ wTs ++ wSuffix ≠ wStem ++ wSuffix) :=
  ⟨(C7_behaviour wStem wSuffix wTs none).1,
   (C7_behaviour wStem wSuffix wTs none).2.1 wX (by decide),
   (C7_behaviour wStem wSuffix wTs none).2.2.1 exHtml OUT1 run1_eq⟩

/-- C10 counterexample: the claim that rerunning the Layout Fixer keeps the
marker-block count at one is false: the second output `OUT2` contains two JS
end markers, not one. -/
theorem C10_cex :
    patch_html exHtml = some OUT1 ∧ patch_html OUT1 = some OUT2 ∧
    pyCount OUT2 PATCH_MARKER_JS_END ≠ 1 :=
  ⟨run1_eq, run2_eq, by rw [out2_je_count]; decide⟩

/-- C10 (amended): marker removal deletes nothing when the begin marker does
not occur in the text; the JS begin marker literal never occurs in the
injected JS block, so rerunning the tool on its own output leaves the old
script element (with its full JS payload) behind: the second output differs
from the first and contains two JS end markers. -/
theorem C10_removal_keeps_unmatched_blocks :
    (∀ b e s, pySub b s = false → removeBetween b e s = s) ∧
    pySub PATCH_MARKER_JS_BEGIN JS_PATCH = false ∧
    patch_html exHtml = some OUT1 ∧ patch_html OUT1 = some OUT2 ∧
    OUT2 ≠ OUT1 ∧ pyCount OUT2 PATCH_MARKER_JS_END = 2 :=
  ⟨removeBetween_not_present, js_patch_no_begin, run1_eq, run2_eq, out2_ne_out1,
    out2_je_count⟩

/-- C10 witness: marker removal at a concrete marker-free text. -/
theorem C10_removal_keeps_unmatched_blocks_w :
    removeBetween PATCH_MARKER_JS_BEGIN PATCH_MARKER_JS_END wGoodbye = wGoodbye :=
  C10_removal_keeps_unmatched_blocks.1 _ _ wGoodbye (by decide)
